import Mathlib

/-!
Navigation data of the QualityControl documentation site.

The repository holds three generated data files: `annotated_dup.js` (symbol
table), `hierarchy.js` (inheritance table) and `navtreedata.js` (navigation
tree `NAVTREE`, flat index `NAVTREEINDEX`, two UI strings).  Each file assigns
a literal to a global variable.  The literals are embedded as values of
`JsVal`, token by token; the properties of the tables are then stated over
these values and proved by evaluation and by induction.
-/

set_option maxRecDepth 100000

namespace QCNav

/-- A JavaScript literal value: `null`, a boolean, a number, a string or an
array literal. -/
inductive JsVal where
  | null : JsVal
  | bool (b : Bool) : JsVal
  | num (n : Int) : JsVal
  | str (s : String) : JsVal
  | arr (items : List JsVal) : JsVal

open JsVal


mutual
/-- Equality of literal values is decidable (by structural comparison). -/
def JsVal.decEq : (a b : JsVal) → Decidable (a = b)
  | null, null => isTrue rfl
  | bool x, bool y =>
    if h : x = y then isTrue (congrArg bool h) else isFalse (fun e => h (bool.inj e))
  | num x, num y =>
    if h : x = y then isTrue (congrArg num h) else isFalse (fun e => h (num.inj e))
  | str x, str y =>
    if h : x = y then isTrue (congrArg str h) else isFalse (fun e => h (str.inj e))
  | arr x, arr y =>
    match JsVal.decEqList x y with
    | isTrue h => isTrue (congrArg arr h)
    | isFalse h => isFalse (fun e => h (arr.inj e))
  | null, bool _ => isFalse (fun e => JsVal.noConfusion e)
  | null, num _ => isFalse (fun e => JsVal.noConfusion e)
  | null, str _ => isFalse (fun e => JsVal.noConfusion e)
  | null, arr _ => isFalse (fun e => JsVal.noConfusion e)
  | bool _, null => isFalse (fun e => JsVal.noConfusion e)
  | bool _, num _ => isFalse (fun e => JsVal.noConfusion e)
  | bool _, str _ => isFalse (fun e => JsVal.noConfusion e)
  | bool _, arr _ => isFalse (fun e => JsVal.noConfusion e)
  | num _, null => isFalse (fun e => JsVal.noConfusion e)
  | num _, bool _ => isFalse (fun e => JsVal.noConfusion e)
  | num _, str _ => isFalse (fun e => JsVal.noConfusion e)
  | num _, arr _ => isFalse (fun e => JsVal.noConfusion e)
  | str _, null => isFalse (fun e => JsVal.noConfusion e)
  | str _, bool _ => isFalse (fun e => JsVal.noConfusion e)
  | str _, num _ => isFalse (fun e => JsVal.noConfusion e)
  | str _, arr _ => isFalse (fun e => JsVal.noConfusion e)
  | arr _, null => isFalse (fun e => JsVal.noConfusion e)
  | arr _, bool _ => isFalse (fun e => JsVal.noConfusion e)
  | arr _, num _ => isFalse (fun e => JsVal.noConfusion e)
  | arr _, str _ => isFalse (fun e => JsVal.noConfusion e)
/-- Equality of lists of literal values, component by component. -/
def JsVal.decEqList : (a b : List JsVal) → Decidable (a = b)
  | [], [] => isTrue rfl
  | [], _ :: _ => isFalse (fun e => List.noConfusion e)
  | _ :: _, [] => isFalse (fun e => List.noConfusion e)
  | x :: xs, y :: ys =>
    match JsVal.decEq x y with
    | isFalse h => isFalse (fun e => h (List.cons.inj e).1)
    | isTrue h =>
      match JsVal.decEqList xs ys with
      | isFalse t => isFalse (fun e => t (List.cons.inj e).2)
      | isTrue t => isTrue (by rw [h, t])
end

instance : DecidableEq JsVal := JsVal.decEq

/-! The data files -/

/-- Table of `annotated_dup.js`. -/
def annotated_dup : JsVal :=
  arr [
    arr [ str "Ccdb", null, arr [
      arr [ str "Ccdb", str "classCcdb_1_1Ccdb.html", str "classCcdb_1_1Ccdb" ],
      arr [ str "ObjectVersion", str "classCcdb_1_1ObjectVersion.html", str "classCcdb_1_1ObjectVersion" ]
    ] ],
    arr [ str "o2", null, arr [
      arr [ str "quality_control", null, arr [
        arr [ str "checker", null, arr [
          arr [ str "Aggregator", str "classo2_1_1quality__control_1_1checker_1_1Aggregator.html", str "classo2_1_1quality__control_1_1checker_1_1Aggregator" ],
          arr [ str "AggregatorInterface", str "classo2_1_1quality__control_1_1checker_1_1AggregatorInterface.html", str "classo2_1_1quality__control_1_1checker_1_1AggregatorInterface" ],
          arr [ str "AggregatorRunner", str "classo2_1_1quality__control_1_1checker_1_1AggregatorRunner.html", str "classo2_1_1quality__control_1_1checker_1_1AggregatorRunner" ],
          arr [ str "AggregatorRunnerFactory", str "classo2_1_1quality__control_1_1checker_1_1AggregatorRunnerFactory.html", str "classo2_1_1quality__control_1_1checker_1_1AggregatorRunnerFactory" ],
          arr [ str "Check", str "classo2_1_1quality__control_1_1checker_1_1Check.html", str "classo2_1_1quality__control_1_1checker_1_1Check" ],
          arr [ str "CheckConfig", str "structo2_1_1quality__control_1_1checker_1_1CheckConfig.html", str "structo2_1_1quality__control_1_1checker_1_1CheckConfig" ],
          arr [ str "CheckInterface", str "classo2_1_1quality__control_1_1checker_1_1CheckInterface.html", str "classo2_1_1quality__control_1_1checker_1_1CheckInterface" ],
          arr [ str "CheckRunner", str "classo2_1_1quality__control_1_1checker_1_1CheckRunner.html", str "classo2_1_1quality__control_1_1checker_1_1CheckRunner" ],
          arr [ str "CheckRunnerFactory", str "classo2_1_1quality__control_1_1checker_1_1CheckRunnerFactory.html", str "classo2_1_1quality__control_1_1checker_1_1CheckRunnerFactory" ],
          arr [ str "UpdatePolicy", str "structo2_1_1quality__control_1_1checker_1_1UpdatePolicy.html", str "structo2_1_1quality__control_1_1checker_1_1UpdatePolicy" ],
          arr [ str "UpdatePolicyManager", str "classo2_1_1quality__control_1_1checker_1_1UpdatePolicyManager.html", str "classo2_1_1quality__control_1_1checker_1_1UpdatePolicyManager" ]
        ] ],
        arr [ str "core", str "namespaceo2_1_1quality__control_1_1core.html", str "namespaceo2_1_1quality__control_1_1core" ],
        arr [ str "example", null, arr [
          arr [ str "ExamplePrinterSpec", str "classo2_1_1quality__control_1_1example_1_1ExamplePrinterSpec.html", str "classo2_1_1quality__control_1_1example_1_1ExamplePrinterSpec" ],
          arr [ str "ExampleQualityPrinterSpec", str "classo2_1_1quality__control_1_1example_1_1ExampleQualityPrinterSpec.html", str "classo2_1_1quality__control_1_1example_1_1ExampleQualityPrinterSpec" ]
        ] ],
        arr [ str "postprocessing", null, arr [
          arr [ str "PostProcessingConfig", str "structo2_1_1quality__control_1_1postprocessing_1_1PostProcessingConfig.html", str "structo2_1_1quality__control_1_1postprocessing_1_1PostProcessingConfig" ],
          arr [ str "PostProcessingDevice", str "classo2_1_1quality__control_1_1postprocessing_1_1PostProcessingDevice.html", str "classo2_1_1quality__control_1_1postprocessing_1_1PostProcessingDevice" ],
          arr [ str "PostProcessingFactory", str "classo2_1_1quality__control_1_1postprocessing_1_1PostProcessingFactory.html", str "classo2_1_1quality__control_1_1postprocessing_1_1PostProcessingFactory" ],
          arr [ str "PostProcessingInterface", str "classo2_1_1quality__control_1_1postprocessing_1_1PostProcessingInterface.html", str "classo2_1_1quality__control_1_1postprocessing_1_1PostProcessingInterface" ],
          arr [ str "PostProcessingRunner", str "classo2_1_1quality__control_1_1postprocessing_1_1PostProcessingRunner.html", str "classo2_1_1quality__control_1_1postprocessing_1_1PostProcessingRunner" ],
          arr [ str "Reductor", str "classo2_1_1quality__control_1_1postprocessing_1_1Reductor.html", str "classo2_1_1quality__control_1_1postprocessing_1_1Reductor" ],
          arr [ str "TrendingTask", str "classo2_1_1quality__control_1_1postprocessing_1_1TrendingTask.html", str "classo2_1_1quality__control_1_1postprocessing_1_1TrendingTask" ],
          arr [ str "TrendingTaskConfig", str "structo2_1_1quality__control_1_1postprocessing_1_1TrendingTaskConfig.html", str "structo2_1_1quality__control_1_1postprocessing_1_1TrendingTaskConfig" ],
          arr [ str "TrendingTaskConfigITS", str "structo2_1_1quality__control_1_1postprocessing_1_1TrendingTaskConfigITS.html", str "structo2_1_1quality__control_1_1postprocessing_1_1TrendingTaskConfigITS" ],
          arr [ str "TrendingTaskITSFhr", str "classo2_1_1quality__control_1_1postprocessing_1_1TrendingTaskITSFhr.html", str "classo2_1_1quality__control_1_1postprocessing_1_1TrendingTaskITSFhr" ],
          arr [ str "TrendingTaskITSThr", str "classo2_1_1quality__control_1_1postprocessing_1_1TrendingTaskITSThr.html", str "classo2_1_1quality__control_1_1postprocessing_1_1TrendingTaskITSThr" ],
          arr [ str "Trigger", str "structo2_1_1quality__control_1_1postprocessing_1_1Trigger.html", str "structo2_1_1quality__control_1_1postprocessing_1_1Trigger" ]
        ] ],
        arr [ str "repository", null, arr [
          arr [ str "CcdbDatabase", str "classo2_1_1quality__control_1_1repository_1_1CcdbDatabase.html", str "classo2_1_1quality__control_1_1repository_1_1CcdbDatabase" ],
          arr [ str "DatabaseFactory", str "classo2_1_1quality__control_1_1repository_1_1DatabaseFactory.html", null ],
          arr [ str "DatabaseInterface", str "classo2_1_1quality__control_1_1repository_1_1DatabaseInterface.html", str "classo2_1_1quality__control_1_1repository_1_1DatabaseInterface" ],
          arr [ str "DummyDatabase", str "classo2_1_1quality__control_1_1repository_1_1DummyDatabase.html", str "classo2_1_1quality__control_1_1repository_1_1DummyDatabase" ],
          arr [ str "MySqlDatabase", str "classo2_1_1quality__control_1_1repository_1_1MySqlDatabase.html", str "classo2_1_1quality__control_1_1repository_1_1MySqlDatabase" ]
        ] ],
        arr [ str "test", null, arr [
          arr [ str "SimpleTestAggregator", str "classo2_1_1quality__control_1_1test_1_1SimpleTestAggregator.html", str "classo2_1_1quality__control_1_1test_1_1SimpleTestAggregator" ],
          arr [ str "TestCheck", str "classo2_1_1quality__control_1_1test_1_1TestCheck.html", str "classo2_1_1quality__control_1_1test_1_1TestCheck" ],
          arr [ str "TestTask", str "classo2_1_1quality__control_1_1test_1_1TestTask.html", str "classo2_1_1quality__control_1_1test_1_1TestTask" ]
        ] ]
      ] ],
      arr [ str "quality_control_modules", null, arr [
        arr [ str "common", null, arr [
          arr [ str "EverIncreasingGraph", str "classo2_1_1quality__control__modules_1_1common_1_1EverIncreasingGraph.html", str "classo2_1_1quality__control__modules_1_1common_1_1EverIncreasingGraph" ],
          arr [ str "MeanIsAbove", str "classo2_1_1quality__control__modules_1_1common_1_1MeanIsAbove.html", str "classo2_1_1quality__control__modules_1_1common_1_1MeanIsAbove" ],
          arr [ str "NonEmpty", str "classo2_1_1quality__control__modules_1_1common_1_1NonEmpty.html", str "classo2_1_1quality__control__modules_1_1common_1_1NonEmpty" ],
          arr [ str "QualityReductor", str "classo2_1_1quality__control__modules_1_1common_1_1QualityReductor.html", str "classo2_1_1quality__control__modules_1_1common_1_1QualityReductor" ],
          arr [ str "TH1Reductor", str "classo2_1_1quality__control__modules_1_1common_1_1TH1Reductor.html", str "classo2_1_1quality__control__modules_1_1common_1_1TH1Reductor" ],
          arr [ str "TH2Reductor", str "classo2_1_1quality__control__modules_1_1common_1_1TH2Reductor.html", str "classo2_1_1quality__control__modules_1_1common_1_1TH2Reductor" ],
          arr [ str "THnSparse5Reductor", str "classo2_1_1quality__control__modules_1_1common_1_1THnSparse5Reductor.html", str "classo2_1_1quality__control__modules_1_1common_1_1THnSparse5Reductor" ]
        ] ],
        arr [ str "daq", null, arr [
          arr [ str "DaqTask", str "classo2_1_1quality__control__modules_1_1daq_1_1DaqTask.html", str "classo2_1_1quality__control__modules_1_1daq_1_1DaqTask" ]
        ] ],
        arr [ str "emcal", null, arr [
          arr [ str "DigitCheck", str "classo2_1_1quality__control__modules_1_1emcal_1_1DigitCheck.html", str "classo2_1_1quality__control__modules_1_1emcal_1_1DigitCheck" ],
          arr [ str "DigitOccupancyReductor", str "classo2_1_1quality__control__modules_1_1emcal_1_1DigitOccupancyReductor.html", str "classo2_1_1quality__control__modules_1_1emcal_1_1DigitOccupancyReductor" ],
          arr [ str "DigitsQcTask", str "classo2_1_1quality__control__modules_1_1emcal_1_1DigitsQcTask.html", str "classo2_1_1quality__control__modules_1_1emcal_1_1DigitsQcTask" ],
          arr [ str "RawCheck", str "classo2_1_1quality__control__modules_1_1emcal_1_1RawCheck.html", str "classo2_1_1quality__control__modules_1_1emcal_1_1RawCheck" ],
          arr [ str "RawTask", str "classo2_1_1quality__control__modules_1_1emcal_1_1RawTask.html", str "classo2_1_1quality__control__modules_1_1emcal_1_1RawTask" ]
        ] ],
        arr [ str "example", null, arr [
          arr [ str "BenchmarkTask", str "classo2_1_1quality__control__modules_1_1example_1_1BenchmarkTask.html", str "classo2_1_1quality__control__modules_1_1example_1_1BenchmarkTask" ],
          arr [ str "ExampleCondition", str "classo2_1_1quality__control__modules_1_1example_1_1ExampleCondition.html", str "classo2_1_1quality__control__modules_1_1example_1_1ExampleCondition" ],
          arr [ str "ExampleTask", str "classo2_1_1quality__control__modules_1_1example_1_1ExampleTask.html", str "classo2_1_1quality__control__modules_1_1example_1_1ExampleTask" ],
          arr [ str "FakeCheck", str "classo2_1_1quality__control__modules_1_1example_1_1FakeCheck.html", str "classo2_1_1quality__control__modules_1_1example_1_1FakeCheck" ]
        ] ],
        arr [ str "ft0", null, arr [
          arr [ str "BasicDigitQcTask", str "classo2_1_1quality__control__modules_1_1ft0_1_1BasicDigitQcTask.html", str "classo2_1_1quality__control__modules_1_1ft0_1_1BasicDigitQcTask" ],
          arr [ str "ChannelsCheck", str "classo2_1_1quality__control__modules_1_1ft0_1_1ChannelsCheck.html", str "classo2_1_1quality__control__modules_1_1ft0_1_1ChannelsCheck" ],
          arr [ str "DigitsCheck", str "classo2_1_1quality__control__modules_1_1ft0_1_1DigitsCheck.html", str "classo2_1_1quality__control__modules_1_1ft0_1_1DigitsCheck" ],
          arr [ str "EventWithChannelData", str "structo2_1_1quality__control__modules_1_1ft0_1_1EventWithChannelData.html", str "structo2_1_1quality__control__modules_1_1ft0_1_1EventWithChannelData" ],
          arr [ str "FT0DataProducer", str "classo2_1_1quality__control__modules_1_1ft0_1_1FT0DataProducer.html", str "classo2_1_1quality__control__modules_1_1ft0_1_1FT0DataProducer" ],
          arr [ str "MergedTreeCheck", str "classo2_1_1quality__control__modules_1_1ft0_1_1MergedTreeCheck.html", str "classo2_1_1quality__control__modules_1_1ft0_1_1MergedTreeCheck" ],
          arr [ str "TreeReaderPostProcessing", str "classo2_1_1quality__control__modules_1_1ft0_1_1TreeReaderPostProcessing.html", str "classo2_1_1quality__control__modules_1_1ft0_1_1TreeReaderPostProcessing" ]
        ] ],
        arr [ str "hmpid", null, arr [
          arr [ str "HmpidDecoder", str "classo2_1_1quality__control__modules_1_1hmpid_1_1HmpidDecoder.html", str "classo2_1_1quality__control__modules_1_1hmpid_1_1HmpidDecoder" ],
          arr [ str "HmpidDecodeRawMem", str "classo2_1_1quality__control__modules_1_1hmpid_1_1HmpidDecodeRawMem.html", str "classo2_1_1quality__control__modules_1_1hmpid_1_1HmpidDecodeRawMem" ],
          arr [ str "HmpidEquipment", str "classo2_1_1quality__control__modules_1_1hmpid_1_1HmpidEquipment.html", str "classo2_1_1quality__control__modules_1_1hmpid_1_1HmpidEquipment" ],
          arr [ str "HmpidTask", str "classo2_1_1quality__control__modules_1_1hmpid_1_1HmpidTask.html", str "classo2_1_1quality__control__modules_1_1hmpid_1_1HmpidTask" ]
        ] ],
        arr [ str "its", null, arr [
          arr [ str "ITSClusterTask", str "classo2_1_1quality__control__modules_1_1its_1_1ITSClusterTask.html", str "classo2_1_1quality__control__modules_1_1its_1_1ITSClusterTask" ],
          arr [ str "ITSFeeTask", str "classo2_1_1quality__control__modules_1_1its_1_1ITSFeeTask.html", str "classo2_1_1quality__control__modules_1_1its_1_1ITSFeeTask" ],
          arr [ str "ITSFhrCheck", str "classo2_1_1quality__control__modules_1_1its_1_1ITSFhrCheck.html", str "classo2_1_1quality__control__modules_1_1its_1_1ITSFhrCheck" ],
          arr [ str "ITSFhrTask", str "classo2_1_1quality__control__modules_1_1its_1_1ITSFhrTask.html", str "classo2_1_1quality__control__modules_1_1its_1_1ITSFhrTask" ],
          arr [ str "ITSRawTask", str "classo2_1_1quality__control__modules_1_1its_1_1ITSRawTask.html", str "classo2_1_1quality__control__modules_1_1its_1_1ITSRawTask" ],
          arr [ str "ITSTrackTask", str "classo2_1_1quality__control__modules_1_1its_1_1ITSTrackTask.html", str "classo2_1_1quality__control__modules_1_1its_1_1ITSTrackTask" ],
          arr [ str "TH2XlineReductor", str "classo2_1_1quality__control__modules_1_1its_1_1TH2XlineReductor.html", str "classo2_1_1quality__control__modules_1_1its_1_1TH2XlineReductor" ]
        ] ],
        arr [ str "mft", null, arr [
          arr [ str "BasicClusterQcCheck", str "classo2_1_1quality__control__modules_1_1mft_1_1BasicClusterQcCheck.html", str "classo2_1_1quality__control__modules_1_1mft_1_1BasicClusterQcCheck" ],
          arr [ str "BasicClusterQcTask", str "classo2_1_1quality__control__modules_1_1mft_1_1BasicClusterQcTask.html", str "classo2_1_1quality__control__modules_1_1mft_1_1BasicClusterQcTask" ],
          arr [ str "BasicDigitQcCheck", str "classo2_1_1quality__control__modules_1_1mft_1_1BasicDigitQcCheck.html", str "classo2_1_1quality__control__modules_1_1mft_1_1BasicDigitQcCheck" ],
          arr [ str "BasicDigitQcTask", str "classo2_1_1quality__control__modules_1_1mft_1_1BasicDigitQcTask.html", str "classo2_1_1quality__control__modules_1_1mft_1_1BasicDigitQcTask" ],
          arr [ str "BasicTrackQcCheck", str "classo2_1_1quality__control__modules_1_1mft_1_1BasicTrackQcCheck.html", str "classo2_1_1quality__control__modules_1_1mft_1_1BasicTrackQcCheck" ],
          arr [ str "BasicTrackQcTask", str "classo2_1_1quality__control__modules_1_1mft_1_1BasicTrackQcTask.html", str "classo2_1_1quality__control__modules_1_1mft_1_1BasicTrackQcTask" ]
        ] ],
        arr [ str "mid", null, arr [
          arr [ str "RawQcCheck", str "classo2_1_1quality__control__modules_1_1mid_1_1RawQcCheck.html", str "classo2_1_1quality__control__modules_1_1mid_1_1RawQcCheck" ],
          arr [ str "RawQcTask", str "classo2_1_1quality__control__modules_1_1mid_1_1RawQcTask.html", str "classo2_1_1quality__control__modules_1_1mid_1_1RawQcTask" ]
        ] ],
        arr [ str "muonchambers", null, arr [
          arr [ str "Decoder", str "classo2_1_1quality__control__modules_1_1muonchambers_1_1Decoder.html", str "classo2_1_1quality__control__modules_1_1muonchambers_1_1Decoder" ],
          arr [ str "DualSampa", str "structo2_1_1quality__control__modules_1_1muonchambers_1_1DualSampa.html", str "structo2_1_1quality__control__modules_1_1muonchambers_1_1DualSampa" ],
          arr [ str "DualSampaGroup", str "structo2_1_1quality__control__modules_1_1muonchambers_1_1DualSampaGroup.html", str "structo2_1_1quality__control__modules_1_1muonchambers_1_1DualSampaGroup" ],
          arr [ str "GlobalHistogram", str "classo2_1_1quality__control__modules_1_1muonchambers_1_1GlobalHistogram.html", str "classo2_1_1quality__control__modules_1_1muonchambers_1_1GlobalHistogram" ],
          arr [ str "MapCRU", str "classo2_1_1quality__control__modules_1_1muonchambers_1_1MapCRU.html", str "classo2_1_1quality__control__modules_1_1muonchambers_1_1MapCRU" ],
          arr [ str "MapDualSampa", str "classo2_1_1quality__control__modules_1_1muonchambers_1_1MapDualSampa.html", str "classo2_1_1quality__control__modules_1_1muonchambers_1_1MapDualSampa" ],
          arr [ str "MapDualSampaInv", str "classo2_1_1quality__control__modules_1_1muonchambers_1_1MapDualSampaInv.html", str "classo2_1_1quality__control__modules_1_1muonchambers_1_1MapDualSampaInv" ],
          arr [ str "MapFEC", str "classo2_1_1quality__control__modules_1_1muonchambers_1_1MapFEC.html", str "classo2_1_1quality__control__modules_1_1muonchambers_1_1MapFEC" ],
          arr [ str "MapPad", str "classo2_1_1quality__control__modules_1_1muonchambers_1_1MapPad.html", str "classo2_1_1quality__control__modules_1_1muonchambers_1_1MapPad" ],
          arr [ str "MapSolar", str "classo2_1_1quality__control__modules_1_1muonchambers_1_1MapSolar.html", str "classo2_1_1quality__control__modules_1_1muonchambers_1_1MapSolar" ],
          arr [ str "MapSolarInv", str "classo2_1_1quality__control__modules_1_1muonchambers_1_1MapSolarInv.html", str "classo2_1_1quality__control__modules_1_1muonchambers_1_1MapSolarInv" ],
          arr [ str "PedestalsCheck", str "classo2_1_1quality__control__modules_1_1muonchambers_1_1PedestalsCheck.html", str "classo2_1_1quality__control__modules_1_1muonchambers_1_1PedestalsCheck" ],
          arr [ str "PedestalsTask", str "classo2_1_1quality__control__modules_1_1muonchambers_1_1PedestalsTask.html", str "classo2_1_1quality__control__modules_1_1muonchambers_1_1PedestalsTask" ],
          arr [ str "PhysicsCheck", str "classo2_1_1quality__control__modules_1_1muonchambers_1_1PhysicsCheck.html", str "classo2_1_1quality__control__modules_1_1muonchambers_1_1PhysicsCheck" ],
          arr [ str "PhysicsTaskDigits", str "classo2_1_1quality__control__modules_1_1muonchambers_1_1PhysicsTaskDigits.html", str "classo2_1_1quality__control__modules_1_1muonchambers_1_1PhysicsTaskDigits" ],
          arr [ str "PhysicsTaskPreclusters", str "classo2_1_1quality__control__modules_1_1muonchambers_1_1PhysicsTaskPreclusters.html", str "classo2_1_1quality__control__modules_1_1muonchambers_1_1PhysicsTaskPreclusters" ],
          arr [ str "SampaHit", str "structo2_1_1quality__control__modules_1_1muonchambers_1_1SampaHit.html", str "structo2_1_1quality__control__modules_1_1muonchambers_1_1SampaHit" ],
          arr [ str "TH1MCHReductor", str "classo2_1_1quality__control__modules_1_1muonchambers_1_1TH1MCHReductor.html", str "classo2_1_1quality__control__modules_1_1muonchambers_1_1TH1MCHReductor" ]
        ] ],
        arr [ str "phos", null, arr [
          arr [ str "DigitCheck", str "classo2_1_1quality__control__modules_1_1phos_1_1DigitCheck.html", str "classo2_1_1quality__control__modules_1_1phos_1_1DigitCheck" ],
          arr [ str "DigitsQcTask", str "classo2_1_1quality__control__modules_1_1phos_1_1DigitsQcTask.html", str "classo2_1_1quality__control__modules_1_1phos_1_1DigitsQcTask" ],
          arr [ str "RawCheck", str "classo2_1_1quality__control__modules_1_1phos_1_1RawCheck.html", str "classo2_1_1quality__control__modules_1_1phos_1_1RawCheck" ],
          arr [ str "RawTask", str "classo2_1_1quality__control__modules_1_1phos_1_1RawTask.html", str "classo2_1_1quality__control__modules_1_1phos_1_1RawTask" ]
        ] ],
        arr [ str "skeleton", null, arr [
          arr [ str "SkeletonAggregator", str "classo2_1_1quality__control__modules_1_1skeleton_1_1SkeletonAggregator.html", str "classo2_1_1quality__control__modules_1_1skeleton_1_1SkeletonAggregator" ],
          arr [ str "SkeletonCheck", str "classo2_1_1quality__control__modules_1_1skeleton_1_1SkeletonCheck.html", str "classo2_1_1quality__control__modules_1_1skeleton_1_1SkeletonCheck" ],
          arr [ str "SkeletonPostProcessing", str "classo2_1_1quality__control__modules_1_1skeleton_1_1SkeletonPostProcessing.html", str "classo2_1_1quality__control__modules_1_1skeleton_1_1SkeletonPostProcessing" ],
          arr [ str "SkeletonTask", str "classo2_1_1quality__control__modules_1_1skeleton_1_1SkeletonTask.html", str "classo2_1_1quality__control__modules_1_1skeleton_1_1SkeletonTask" ]
        ] ],
        arr [ str "test", null, arr [
          arr [ str "TestTask", str "classo2_1_1quality__control__modules_1_1test_1_1TestTask.html", str "classo2_1_1quality__control__modules_1_1test_1_1TestTask" ]
        ] ],
        arr [ str "tof", null, arr [
          arr [ str "CheckCompressedData", str "classo2_1_1quality__control__modules_1_1tof_1_1CheckCompressedData.html", str "classo2_1_1quality__control__modules_1_1tof_1_1CheckCompressedData" ],
          arr [ str "CheckDiagnostics", str "classo2_1_1quality__control__modules_1_1tof_1_1CheckDiagnostics.html", str "classo2_1_1quality__control__modules_1_1tof_1_1CheckDiagnostics" ],
          arr [ str "CheckRawMultiplicity", str "classo2_1_1quality__control__modules_1_1tof_1_1CheckRawMultiplicity.html", str "classo2_1_1quality__control__modules_1_1tof_1_1CheckRawMultiplicity" ],
          arr [ str "CheckRawTime", str "classo2_1_1quality__control__modules_1_1tof_1_1CheckRawTime.html", str "classo2_1_1quality__control__modules_1_1tof_1_1CheckRawTime" ],
          arr [ str "CheckRawToT", str "classo2_1_1quality__control__modules_1_1tof_1_1CheckRawToT.html", str "classo2_1_1quality__control__modules_1_1tof_1_1CheckRawToT" ],
          arr [ str "CompressedDataDecoder", str "classo2_1_1quality__control__modules_1_1tof_1_1CompressedDataDecoder.html", str "classo2_1_1quality__control__modules_1_1tof_1_1CompressedDataDecoder" ],
          arr [ str "Counter", str "classo2_1_1quality__control__modules_1_1tof_1_1Counter.html", str "classo2_1_1quality__control__modules_1_1tof_1_1Counter" ],
          arr [ str "DiagnosticsCounter", str "classo2_1_1quality__control__modules_1_1tof_1_1DiagnosticsCounter.html", str "classo2_1_1quality__control__modules_1_1tof_1_1DiagnosticsCounter" ],
          arr [ str "PostProcessDiagnosticPerCrate", str "classo2_1_1quality__control__modules_1_1tof_1_1PostProcessDiagnosticPerCrate.html", str "classo2_1_1quality__control__modules_1_1tof_1_1PostProcessDiagnosticPerCrate" ],
          arr [ str "TaskCompressedData", str "classo2_1_1quality__control__modules_1_1tof_1_1TaskCompressedData.html", str "classo2_1_1quality__control__modules_1_1tof_1_1TaskCompressedData" ],
          arr [ str "TaskDiagnostics", str "classo2_1_1quality__control__modules_1_1tof_1_1TaskDiagnostics.html", str "classo2_1_1quality__control__modules_1_1tof_1_1TaskDiagnostics" ],
          arr [ str "TaskDigits", str "classo2_1_1quality__control__modules_1_1tof_1_1TaskDigits.html", str "classo2_1_1quality__control__modules_1_1tof_1_1TaskDigits" ]
        ] ],
        arr [ str "tpc", null, arr [
          arr [ str "Clusters", str "classo2_1_1quality__control__modules_1_1tpc_1_1Clusters.html", str "classo2_1_1quality__control__modules_1_1tpc_1_1Clusters" ],
          arr [ str "PID", str "classo2_1_1quality__control__modules_1_1tpc_1_1PID.html", str "classo2_1_1quality__control__modules_1_1tpc_1_1PID" ],
          arr [ str "PIDClusterCheck", str "classo2_1_1quality__control__modules_1_1tpc_1_1PIDClusterCheck.html", str "classo2_1_1quality__control__modules_1_1tpc_1_1PIDClusterCheck" ],
          arr [ str "ROCReductor", str "classo2_1_1quality__control__modules_1_1tpc_1_1ROCReductor.html", str "classo2_1_1quality__control__modules_1_1tpc_1_1ROCReductor" ],
          arr [ str "TrackClusterCheck", str "classo2_1_1quality__control__modules_1_1tpc_1_1TrackClusterCheck.html", str "classo2_1_1quality__control__modules_1_1tpc_1_1TrackClusterCheck" ],
          arr [ str "Tracks", str "classo2_1_1quality__control__modules_1_1tpc_1_1Tracks.html", str "classo2_1_1quality__control__modules_1_1tpc_1_1Tracks" ]
        ] ]
      ] ]
    ] ],
    arr [ str "repoCleaner", null, arr [
      arr [ str "Rule", str "classrepoCleaner_1_1Rule.html", str "classrepoCleaner_1_1Rule" ]
    ] ],
    arr [ str "Sampa", null, arr [
      arr [ str "SampaHeaderStruct", str "structSampa_1_1SampaHeaderStruct.html", str "structSampa_1_1SampaHeaderStruct" ]
    ] ],
    arr [ str "test_Ccdb", null, arr [
      arr [ str "TestCcdb", str "classtest__Ccdb_1_1TestCcdb.html", str "classtest__Ccdb_1_1TestCcdb" ]
    ] ],
    arr [ str "test_repoCleaner", null, arr [
      arr [ str "TestRepoCleaner", str "classtest__repoCleaner_1_1TestRepoCleaner.html", str "classtest__repoCleaner_1_1TestRepoCleaner" ]
    ] ],
    arr [ str "ClustersRootFileReaderMFT", str "classClustersRootFileReaderMFT.html", str "classClustersRootFileReaderMFT" ],
    arr [ str "CRUheader", str "structCRUheader.html", str "structCRUheader" ],
    arr [ str "DataSamplingCondition", str "classo2_1_1utilities_1_1DataSamplingCondition.html", null ],
    arr [ str "DecoderBase", str "classDecoderBase.html", null ],
    arr [ str "DigitEvent", str "structDigitEvent.html", str "structDigitEvent" ],
    arr [ str "DigitsRootFileReaderMFT", str "classDigitsRootFileReaderMFT.html", str "classDigitsRootFileReaderMFT" ],
    arr [ str "ExceptionBase", str "classAliceO2_1_1Common_1_1ExceptionBase.html", null ],
    arr [ str "FairMQDevice", str "classFairMQDevice.html", null ],
    arr [ str "InfoLogger", str "classAliceO2_1_1InfoLogger_1_1InfoLogger.html", null ],
    arr [ str "MyReductor", str "classMyReductor.html", str "classMyReductor" ],
    arr [ str "PostProcessingOCCStateMachine", str "classPostProcessingOCCStateMachine.html", str "classPostProcessingOCCStateMachine" ],
    arr [ str "Receiver", str "classReceiver.html", str "classReceiver" ],
    arr [ str "RuntimeControlledObject", str "classRuntimeControlledObject.html", null ],
    arr [ str "Task", str "classo2_1_1framework_1_1Task.html", null ],
    arr [ str "TestCheck", str "classTestCheck.html", str "classTestCheck" ],
    arr [ str "TH2F", str "classTH2F.html", null ],
    arr [ str "TObjArray", str "classTObjArray.html", null ],
    arr [ str "TObject", str "classTObject.html", null ],
    arr [ str "TracksRootFileReaderMFT", str "classTracksRootFileReaderMFT.html", str "classTracksRootFileReaderMFT" ]
  ]

/-- Table of `hierarchy.js`. -/
def hierarchy : JsVal :=
  arr [
    arr [ str "o2::quality_control::core::Activity", str "classo2_1_1quality__control_1_1core_1_1Activity.html", null ],
    arr [ str "o2::quality_control::checker::Aggregator", str "classo2_1_1quality__control_1_1checker_1_1Aggregator.html", null ],
    arr [ str "o2::quality_control::checker::AggregatorInterface", str "classo2_1_1quality__control_1_1checker_1_1AggregatorInterface.html", arr [
      arr [ str "o2::quality_control::test::SimpleTestAggregator", str "classo2_1_1quality__control_1_1test_1_1SimpleTestAggregator.html", null ],
      arr [ str "o2::quality_control_modules::skeleton::SkeletonAggregator", str "classo2_1_1quality__control__modules_1_1skeleton_1_1SkeletonAggregator.html", null ]
    ] ],
    arr [ str "o2::quality_control::checker::AggregatorRunnerFactory", str "classo2_1_1quality__control_1_1checker_1_1AggregatorRunnerFactory.html", null ],
    arr [ str "Ccdb.Ccdb", str "classCcdb_1_1Ccdb.html", null ],
    arr [ str "o2::quality_control::checker::Check", str "classo2_1_1quality__control_1_1checker_1_1Check.html", null ],
    arr [ str "o2::quality_control::checker::CheckConfig", str "structo2_1_1quality__control_1_1checker_1_1CheckConfig.html", null ],
    arr [ str "o2::quality_control::checker::CheckInterface", str "classo2_1_1quality__control_1_1checker_1_1CheckInterface.html", arr [
      arr [ str "o2::quality_control::test::TestCheck", str "classo2_1_1quality__control_1_1test_1_1TestCheck.html", null ],
      arr [ str "o2::quality_control_modules::common::EverIncreasingGraph", str "classo2_1_1quality__control__modules_1_1common_1_1EverIncreasingGraph.html", null ],
      arr [ str "o2::quality_control_modules::common::MeanIsAbove", str "classo2_1_1quality__control__modules_1_1common_1_1MeanIsAbove.html", null ],
      arr [ str "o2::quality_control_modules::common::NonEmpty", str "classo2_1_1quality__control__modules_1_1common_1_1NonEmpty.html", null ],
      arr [ str "o2::quality_control_modules::emcal::DigitCheck", str "classo2_1_1quality__control__modules_1_1emcal_1_1DigitCheck.html", null ],
      arr [ str "o2::quality_control_modules::emcal::RawCheck", str "classo2_1_1quality__control__modules_1_1emcal_1_1RawCheck.html", null ],
      arr [ str "o2::quality_control_modules::example::FakeCheck", str "classo2_1_1quality__control__modules_1_1example_1_1FakeCheck.html", null ],
      arr [ str "o2::quality_control_modules::ft0::ChannelsCheck", str "classo2_1_1quality__control__modules_1_1ft0_1_1ChannelsCheck.html", null ],
      arr [ str "o2::quality_control_modules::ft0::DigitsCheck", str "classo2_1_1quality__control__modules_1_1ft0_1_1DigitsCheck.html", null ],
      arr [ str "o2::quality_control_modules::ft0::MergedTreeCheck", str "classo2_1_1quality__control__modules_1_1ft0_1_1MergedTreeCheck.html", null ],
      arr [ str "o2::quality_control_modules::its::ITSFhrCheck", str "classo2_1_1quality__control__modules_1_1its_1_1ITSFhrCheck.html", null ],
      arr [ str "o2::quality_control_modules::mft::BasicClusterQcCheck", str "classo2_1_1quality__control__modules_1_1mft_1_1BasicClusterQcCheck.html", null ],
      arr [ str "o2::quality_control_modules::mft::BasicDigitQcCheck", str "classo2_1_1quality__control__modules_1_1mft_1_1BasicDigitQcCheck.html", null ],
      arr [ str "o2::quality_control_modules::mft::BasicTrackQcCheck", str "classo2_1_1quality__control__modules_1_1mft_1_1BasicTrackQcCheck.html", null ],
      arr [ str "o2::quality_control_modules::mid::RawQcCheck", str "classo2_1_1quality__control__modules_1_1mid_1_1RawQcCheck.html", null ],
      arr [ str "o2::quality_control_modules::muonchambers::PedestalsCheck", str "classo2_1_1quality__control__modules_1_1muonchambers_1_1PedestalsCheck.html", null ],
      arr [ str "o2::quality_control_modules::muonchambers::PhysicsCheck", str "classo2_1_1quality__control__modules_1_1muonchambers_1_1PhysicsCheck.html", null ],
      arr [ str "o2::quality_control_modules::phos::DigitCheck", str "classo2_1_1quality__control__modules_1_1phos_1_1DigitCheck.html", null ],
      arr [ str "o2::quality_control_modules::phos::RawCheck", str "classo2_1_1quality__control__modules_1_1phos_1_1RawCheck.html", null ],
      arr [ str "o2::quality_control_modules::skeleton::SkeletonCheck", str "classo2_1_1quality__control__modules_1_1skeleton_1_1SkeletonCheck.html", null ],
      arr [ str "o2::quality_control_modules::tof::CheckCompressedData", str "classo2_1_1quality__control__modules_1_1tof_1_1CheckCompressedData.html", null ],
      arr [ str "o2::quality_control_modules::tof::CheckDiagnostics", str "classo2_1_1quality__control__modules_1_1tof_1_1CheckDiagnostics.html", null ],
      arr [ str "o2::quality_control_modules::tof::CheckRawMultiplicity", str "classo2_1_1quality__control__modules_1_1tof_1_1CheckRawMultiplicity.html", null ],
      arr [ str "o2::quality_control_modules::tof::CheckRawTime", str "classo2_1_1quality__control__modules_1_1tof_1_1CheckRawTime.html", null ],
      arr [ str "o2::quality_control_modules::tof::CheckRawToT", str "classo2_1_1quality__control__modules_1_1tof_1_1CheckRawToT.html", null ],
      arr [ str "o2::quality_control_modules::tpc::PIDClusterCheck", str "classo2_1_1quality__control__modules_1_1tpc_1_1PIDClusterCheck.html", null ],
      arr [ str "o2::quality_control_modules::tpc::TrackClusterCheck", str "classo2_1_1quality__control__modules_1_1tpc_1_1TrackClusterCheck.html", null ],
      arr [ str "TestCheck", str "classTestCheck.html", null ]
    ] ],
    arr [ str "o2::quality_control::checker::CheckRunnerFactory", str "classo2_1_1quality__control_1_1checker_1_1CheckRunnerFactory.html", null ],
    arr [ str "o2::quality_control::core::Chunk", str "structo2_1_1quality__control_1_1core_1_1Chunk.html", null ],
    arr [ str "o2::quality_control_modules::tof::Counter< size, labels >", str "classo2_1_1quality__control__modules_1_1tof_1_1Counter.html", null ],
    arr [ str "o2::quality_control_modules::tof::Counter< 2, RDHDiagnosticName >", str "classo2_1_1quality__control__modules_1_1tof_1_1Counter.html", null ],
    arr [ str "o2::quality_control_modules::tof::Counter< 32, o2::tof::diagnostic::DRMDiagnosticName >", str "classo2_1_1quality__control__modules_1_1tof_1_1Counter.html", null ],
    arr [ str "o2::quality_control_modules::tof::Counter< 32, o2::tof::diagnostic::LTMDiagnosticName >", str "classo2_1_1quality__control__modules_1_1tof_1_1Counter.html", null ],
    arr [ str "o2::quality_control_modules::tof::Counter< 32, o2::tof::diagnostic::TRMDiagnosticName >", str "classo2_1_1quality__control__modules_1_1tof_1_1Counter.html", null ],
    arr [ str "CRUheader", str "structCRUheader.html", null ],
    arr [ str "o2::quality_control::repository::DatabaseFactory", str "classo2_1_1quality__control_1_1repository_1_1DatabaseFactory.html", null ],
    arr [ str "o2::quality_control::repository::DatabaseInterface", str "classo2_1_1quality__control_1_1repository_1_1DatabaseInterface.html", arr [
      arr [ str "o2::quality_control::repository::CcdbDatabase", str "classo2_1_1quality__control_1_1repository_1_1CcdbDatabase.html", null ],
      arr [ str "o2::quality_control::repository::DummyDatabase", str "classo2_1_1quality__control_1_1repository_1_1DummyDatabase.html", null ],
      arr [ str "o2::quality_control::repository::MySqlDatabase", str "classo2_1_1quality__control_1_1repository_1_1MySqlDatabase.html", null ]
    ] ],
    arr [ str "DataSamplingCondition", str "classo2_1_1utilities_1_1DataSamplingCondition.html", arr [
      arr [ str "o2::quality_control_modules::example::ExampleCondition", str "classo2_1_1quality__control__modules_1_1example_1_1ExampleCondition.html", null ]
    ] ],
    arr [ str "o2::quality_control::postprocessing::TrendingTaskConfigITS::DataSource", str "structo2_1_1quality__control_1_1postprocessing_1_1TrendingTaskConfigITS_1_1DataSource.html", null ],
    arr [ str "o2::quality_control::postprocessing::TrendingTaskConfig::DataSource", str "structo2_1_1quality__control_1_1postprocessing_1_1TrendingTaskConfig_1_1DataSource.html", null ],
    arr [ str "o2::quality_control_modules::muonchambers::Decoder", str "classo2_1_1quality__control__modules_1_1muonchambers_1_1Decoder.html", null ],
    arr [ str "DecoderBase", str "classDecoderBase.html", arr [
      arr [ str "o2::quality_control_modules::tof::CompressedDataDecoder", str "classo2_1_1quality__control__modules_1_1tof_1_1CompressedDataDecoder.html", null ],
      arr [ str "o2::quality_control_modules::tof::DiagnosticsCounter", str "classo2_1_1quality__control__modules_1_1tof_1_1DiagnosticsCounter.html", null ]
    ] ],
    arr [ str "DigitEvent", str "structDigitEvent.html", null ],
    arr [ str "o2::quality_control_modules::muonchambers::DualSampa", str "structo2_1_1quality__control__modules_1_1muonchambers_1_1DualSampa.html", null ],
    arr [ str "o2::quality_control_modules::muonchambers::DualSampaGroup", str "structo2_1_1quality__control__modules_1_1muonchambers_1_1DualSampaGroup.html", null ],
    arr [ str "o2::quality_control_modules::ft0::EventWithChannelData", str "structo2_1_1quality__control__modules_1_1ft0_1_1EventWithChannelData.html", null ],
    arr [ str "ExceptionBase", str "classAliceO2_1_1Common_1_1ExceptionBase.html", arr [
      arr [ str "o2::quality_control::core::DuplicateObjectError", str "structo2_1_1quality__control_1_1core_1_1DuplicateObjectError.html", null ]
    ] ],
    arr [ str "FairMQDevice", str "classFairMQDevice.html", arr [
      arr [ str "o2::quality_control::core::DataDumpGui", str "classo2_1_1quality__control_1_1core_1_1DataDumpGui.html", null ],
      arr [ str "o2::quality_control::core::RepositoryBenchmark", str "classo2_1_1quality__control_1_1core_1_1RepositoryBenchmark.html", null ]
    ] ],
    arr [ str "o2::quality_control_modules::its::ITSFeeTask::GBTDdw::GBTBits", str "uniono2_1_1quality__control__modules_1_1its_1_1ITSFeeTask_1_1GBTDdw_1_1GBTBits.html", null ],
    arr [ str "o2::quality_control::core::GUIState", str "structo2_1_1quality__control_1_1core_1_1GUIState.html", null ],
    arr [ str "o2::quality_control_modules::hmpid::HmpidDecoder", str "classo2_1_1quality__control__modules_1_1hmpid_1_1HmpidDecoder.html", arr [
      arr [ str "o2::quality_control_modules::hmpid::HmpidDecodeRawMem", str "classo2_1_1quality__control__modules_1_1hmpid_1_1HmpidDecodeRawMem.html", null ]
    ] ],
    arr [ str "o2::quality_control_modules::hmpid::HmpidEquipment", str "classo2_1_1quality__control__modules_1_1hmpid_1_1HmpidEquipment.html", null ],
    arr [ str "InfoLogger", str "classAliceO2_1_1InfoLogger_1_1InfoLogger.html", arr [
      arr [ str "o2::quality_control::core::QcInfoLogger", str "classo2_1_1quality__control_1_1core_1_1QcInfoLogger.html", null ]
    ] ],
    arr [ str "o2::quality_control::core::InfrastructureGenerator", str "classo2_1_1quality__control_1_1core_1_1InfrastructureGenerator.html", null ],
    arr [ str "o2::quality_control_modules::muonchambers::MapCRU", str "classo2_1_1quality__control__modules_1_1muonchambers_1_1MapCRU.html", null ],
    arr [ str "o2::quality_control_modules::muonchambers::MapDualSampa", str "classo2_1_1quality__control__modules_1_1muonchambers_1_1MapDualSampa.html", null ],
    arr [ str "o2::quality_control_modules::muonchambers::MapDualSampaInv", str "classo2_1_1quality__control__modules_1_1muonchambers_1_1MapDualSampaInv.html", null ],
    arr [ str "o2::quality_control_modules::muonchambers::MapFEC", str "classo2_1_1quality__control__modules_1_1muonchambers_1_1MapFEC.html", null ],
    arr [ str "o2::quality_control_modules::muonchambers::MapPad", str "classo2_1_1quality__control__modules_1_1muonchambers_1_1MapPad.html", null ],
    arr [ str "o2::quality_control_modules::muonchambers::MapSolar", str "classo2_1_1quality__control__modules_1_1muonchambers_1_1MapSolar.html", null ],
    arr [ str "o2::quality_control_modules::muonchambers::MapSolarInv", str "classo2_1_1quality__control__modules_1_1muonchambers_1_1MapSolarInv.html", null ],
    arr [ str "MergeInterface", null, arr [
      arr [ str "o2::quality_control::core::MonitorObjectCollection", str "classo2_1_1quality__control_1_1core_1_1MonitorObjectCollection.html", null ]
    ] ],
    arr [ str "o2::quality_control::core::ObjectsManager", str "classo2_1_1quality__control_1_1core_1_1ObjectsManager.html", null ],
    arr [ str "Ccdb.ObjectVersion", str "classCcdb_1_1ObjectVersion.html", null ],
    arr [ str "o2::quality_control_modules::its::ITSFeeTask::GBTDdw::GBTBits::payloadBits", str "structo2_1_1quality__control__modules_1_1its_1_1ITSFeeTask_1_1GBTDdw_1_1GBTBits_1_1payloadBits.html", null ],
    arr [ str "o2::quality_control::postprocessing::TrendingTaskConfigITS::Plot", str "structo2_1_1quality__control_1_1postprocessing_1_1TrendingTaskConfigITS_1_1Plot.html", null ],
    arr [ str "o2::quality_control::postprocessing::TrendingTaskConfig::Plot", str "structo2_1_1quality__control_1_1postprocessing_1_1TrendingTaskConfig_1_1Plot.html", null ],
    arr [ str "o2::quality_control::postprocessing::PostProcessingConfig", str "structo2_1_1quality__control_1_1postprocessing_1_1PostProcessingConfig.html", arr [
      arr [ str "o2::quality_control::postprocessing::TrendingTaskConfig", str "structo2_1_1quality__control_1_1postprocessing_1_1TrendingTaskConfig.html", null ],
      arr [ str "o2::quality_control::postprocessing::TrendingTaskConfigITS", str "structo2_1_1quality__control_1_1postprocessing_1_1TrendingTaskConfigITS.html", null ]
    ] ],
    arr [ str "o2::quality_control::postprocessing::PostProcessingFactory", str "classo2_1_1quality__control_1_1postprocessing_1_1PostProcessingFactory.html", null ],
    arr [ str "o2::quality_control::postprocessing::PostProcessingInterface", str "classo2_1_1quality__control_1_1postprocessing_1_1PostProcessingInterface.html", arr [
      arr [ str "o2::quality_control::postprocessing::TrendingTask", str "classo2_1_1quality__control_1_1postprocessing_1_1TrendingTask.html", null ],
      arr [ str "o2::quality_control::postprocessing::TrendingTaskITSFhr", str "classo2_1_1quality__control_1_1postprocessing_1_1TrendingTaskITSFhr.html", null ],
      arr [ str "o2::quality_control::postprocessing::TrendingTaskITSThr", str "classo2_1_1quality__control_1_1postprocessing_1_1TrendingTaskITSThr.html", null ],
      arr [ str "o2::quality_control_modules::ft0::TreeReaderPostProcessing", str "classo2_1_1quality__control__modules_1_1ft0_1_1TreeReaderPostProcessing.html", null ],
      arr [ str "o2::quality_control_modules::skeleton::SkeletonPostProcessing", str "classo2_1_1quality__control__modules_1_1skeleton_1_1SkeletonPostProcessing.html", null ],
      arr [ str "o2::quality_control_modules::test::TestTask", str "classo2_1_1quality__control__modules_1_1test_1_1TestTask.html", null ],
      arr [ str "o2::quality_control_modules::tof::PostProcessDiagnosticPerCrate", str "classo2_1_1quality__control__modules_1_1tof_1_1PostProcessDiagnosticPerCrate.html", null ]
    ] ],
    arr [ str "o2::quality_control::postprocessing::PostProcessingRunner", str "classo2_1_1quality__control_1_1postprocessing_1_1PostProcessingRunner.html", null ],
    arr [ str "o2::quality_control::core::Quality", str "classo2_1_1quality__control_1_1core_1_1Quality.html", null ],
    arr [ str "o2::quality_control::postprocessing::Reductor", str "classo2_1_1quality__control_1_1postprocessing_1_1Reductor.html", arr [
      arr [ str "MyReductor", str "classMyReductor.html", null ],
      arr [ str "o2::quality_control_modules::common::QualityReductor", str "classo2_1_1quality__control__modules_1_1common_1_1QualityReductor.html", null ],
      arr [ str "o2::quality_control_modules::common::TH1Reductor", str "classo2_1_1quality__control__modules_1_1common_1_1TH1Reductor.html", null ],
      arr [ str "o2::quality_control_modules::common::TH2Reductor", str "classo2_1_1quality__control__modules_1_1common_1_1TH2Reductor.html", null ],
      arr [ str "o2::quality_control_modules::common::THnSparse5Reductor", str "classo2_1_1quality__control__modules_1_1common_1_1THnSparse5Reductor.html", null ],
      arr [ str "o2::quality_control_modules::emcal::DigitOccupancyReductor", str "classo2_1_1quality__control__modules_1_1emcal_1_1DigitOccupancyReductor.html", null ],
      arr [ str "o2::quality_control_modules::its::TH2XlineReductor", str "classo2_1_1quality__control__modules_1_1its_1_1TH2XlineReductor.html", null ],
      arr [ str "o2::quality_control_modules::muonchambers::TH1MCHReductor", str "classo2_1_1quality__control__modules_1_1muonchambers_1_1TH1MCHReductor.html", null ],
      arr [ str "o2::quality_control_modules::tpc::ROCReductor", str "classo2_1_1quality__control__modules_1_1tpc_1_1ROCReductor.html", null ]
    ] ],
    arr [ str "o2::quality_control::core::RepoPathUtils", str "classo2_1_1quality__control_1_1core_1_1RepoPathUtils.html", null ],
    arr [ str "repoCleaner.Rule", str "classrepoCleaner_1_1Rule.html", null ],
    arr [ str "RuntimeControlledObject", str "classRuntimeControlledObject.html", arr [
      arr [ str "PostProcessingOCCStateMachine", str "classPostProcessingOCCStateMachine.html", null ]
    ] ],
    arr [ str "Sampa::SampaHeaderStruct", str "structSampa_1_1SampaHeaderStruct.html", null ],
    arr [ str "o2::quality_control_modules::muonchambers::SampaHit", str "structo2_1_1quality__control__modules_1_1muonchambers_1_1SampaHit.html", null ],
    arr [ str "o2::quality_control::core::ServiceDiscovery", str "classo2_1_1quality__control_1_1core_1_1ServiceDiscovery.html", null ],
    arr [ str "Task", str "classo2_1_1framework_1_1Task.html", arr [
      arr [ str "ClustersRootFileReaderMFT", str "classClustersRootFileReaderMFT.html", null ],
      arr [ str "DigitsRootFileReaderMFT", str "classDigitsRootFileReaderMFT.html", null ],
      arr [ str "o2::quality_control::checker::AggregatorRunner", str "classo2_1_1quality__control_1_1checker_1_1AggregatorRunner.html", null ],
      arr [ str "o2::quality_control::core::TaskRunner", str "classo2_1_1quality__control_1_1core_1_1TaskRunner.html", null ],
      arr [ str "o2::quality_control::example::ExampleQualityPrinterSpec", str "classo2_1_1quality__control_1_1example_1_1ExampleQualityPrinterSpec.html", null ],
      arr [ str "o2::quality_control_modules::ft0::FT0DataProducer", str "classo2_1_1quality__control__modules_1_1ft0_1_1FT0DataProducer.html", null ],
      arr [ str "TracksRootFileReaderMFT", str "classTracksRootFileReaderMFT.html", null ]
    ] ],
    arr [ str "Task", null, arr [
      arr [ str "o2::quality_control::checker::CheckRunner", str "classo2_1_1quality__control_1_1checker_1_1CheckRunner.html", null ],
      arr [ str "o2::quality_control::example::ExamplePrinterSpec", str "classo2_1_1quality__control_1_1example_1_1ExamplePrinterSpec.html", null ],
      arr [ str "o2::quality_control::postprocessing::PostProcessingDevice", str "classo2_1_1quality__control_1_1postprocessing_1_1PostProcessingDevice.html", null ],
      arr [ str "Receiver", str "classReceiver.html", null ]
    ] ],
    arr [ str "o2::quality_control::core::TaskConfig", str "structo2_1_1quality__control_1_1core_1_1TaskConfig.html", null ],
    arr [ str "o2::quality_control::core::TaskFactory", str "classo2_1_1quality__control_1_1core_1_1TaskFactory.html", null ],
    arr [ str "o2::quality_control::core::TaskInterface", str "classo2_1_1quality__control_1_1core_1_1TaskInterface.html", arr [
      arr [ str "o2::quality_control::test::TestTask", str "classo2_1_1quality__control_1_1test_1_1TestTask.html", null ],
      arr [ str "o2::quality_control_modules::daq::DaqTask", str "classo2_1_1quality__control__modules_1_1daq_1_1DaqTask.html", null ],
      arr [ str "o2::quality_control_modules::emcal::DigitsQcTask", str "classo2_1_1quality__control__modules_1_1emcal_1_1DigitsQcTask.html", null ],
      arr [ str "o2::quality_control_modules::emcal::RawTask", str "classo2_1_1quality__control__modules_1_1emcal_1_1RawTask.html", null ],
      arr [ str "o2::quality_control_modules::example::BenchmarkTask", str "classo2_1_1quality__control__modules_1_1example_1_1BenchmarkTask.html", null ],
      arr [ str "o2::quality_control_modules::example::ExampleTask", str "classo2_1_1quality__control__modules_1_1example_1_1ExampleTask.html", null ],
      arr [ str "o2::quality_control_modules::ft0::BasicDigitQcTask", str "classo2_1_1quality__control__modules_1_1ft0_1_1BasicDigitQcTask.html", null ],
      arr [ str "o2::quality_control_modules::hmpid::HmpidTask", str "classo2_1_1quality__control__modules_1_1hmpid_1_1HmpidTask.html", null ],
      arr [ str "o2::quality_control_modules::its::ITSClusterTask", str "classo2_1_1quality__control__modules_1_1its_1_1ITSClusterTask.html", null ],
      arr [ str "o2::quality_control_modules::its::ITSFeeTask", str "classo2_1_1quality__control__modules_1_1its_1_1ITSFeeTask.html", null ],
      arr [ str "o2::quality_control_modules::its::ITSFhrTask", str "classo2_1_1quality__control__modules_1_1its_1_1ITSFhrTask.html", null ],
      arr [ str "o2::quality_control_modules::its::ITSRawTask", str "classo2_1_1quality__control__modules_1_1its_1_1ITSRawTask.html", null ],
      arr [ str "o2::quality_control_modules::its::ITSTrackTask", str "classo2_1_1quality__control__modules_1_1its_1_1ITSTrackTask.html", null ],
      arr [ str "o2::quality_control_modules::mft::BasicClusterQcTask", str "classo2_1_1quality__control__modules_1_1mft_1_1BasicClusterQcTask.html", null ],
      arr [ str "o2::quality_control_modules::mft::BasicDigitQcTask", str "classo2_1_1quality__control__modules_1_1mft_1_1BasicDigitQcTask.html", null ],
      arr [ str "o2::quality_control_modules::mft::BasicTrackQcTask", str "classo2_1_1quality__control__modules_1_1mft_1_1BasicTrackQcTask.html", null ],
      arr [ str "o2::quality_control_modules::mid::RawQcTask", str "classo2_1_1quality__control__modules_1_1mid_1_1RawQcTask.html", null ],
      arr [ str "o2::quality_control_modules::muonchambers::PedestalsTask", str "classo2_1_1quality__control__modules_1_1muonchambers_1_1PedestalsTask.html", null ],
      arr [ str "o2::quality_control_modules::muonchambers::PhysicsTaskDigits", str "classo2_1_1quality__control__modules_1_1muonchambers_1_1PhysicsTaskDigits.html", null ],
      arr [ str "o2::quality_control_modules::muonchambers::PhysicsTaskPreclusters", str "classo2_1_1quality__control__modules_1_1muonchambers_1_1PhysicsTaskPreclusters.html", null ],
      arr [ str "o2::quality_control_modules::phos::DigitsQcTask", str "classo2_1_1quality__control__modules_1_1phos_1_1DigitsQcTask.html", null ],
      arr [ str "o2::quality_control_modules::phos::RawTask", str "classo2_1_1quality__control__modules_1_1phos_1_1RawTask.html", null ],
      arr [ str "o2::quality_control_modules::skeleton::SkeletonTask", str "classo2_1_1quality__control__modules_1_1skeleton_1_1SkeletonTask.html", null ],
      arr [ str "o2::quality_control_modules::tof::TaskCompressedData", str "classo2_1_1quality__control__modules_1_1tof_1_1TaskCompressedData.html", null ],
      arr [ str "o2::quality_control_modules::tof::TaskDiagnostics", str "classo2_1_1quality__control__modules_1_1tof_1_1TaskDiagnostics.html", null ],
      arr [ str "o2::quality_control_modules::tof::TaskDigits", str "classo2_1_1quality__control__modules_1_1tof_1_1TaskDigits.html", null ],
      arr [ str "o2::quality_control_modules::tpc::Clusters", str "classo2_1_1quality__control__modules_1_1tpc_1_1Clusters.html", null ],
      arr [ str "o2::quality_control_modules::tpc::PID", str "classo2_1_1quality__control__modules_1_1tpc_1_1PID.html", null ],
      arr [ str "o2::quality_control_modules::tpc::Tracks", str "classo2_1_1quality__control__modules_1_1tpc_1_1Tracks.html", null ]
    ] ],
    arr [ str "o2::quality_control::core::TaskRunnerFactory", str "classo2_1_1quality__control_1_1core_1_1TaskRunnerFactory.html", null ],
    arr [ str "TestCase", null, arr [
      arr [ str "test_Ccdb.TestCcdb", str "classtest__Ccdb_1_1TestCcdb.html", null ],
      arr [ str "test_repoCleaner.TestRepoCleaner", str "classtest__repoCleaner_1_1TestRepoCleaner.html", null ]
    ] ],
    arr [ str "TH2F", str "classTH2F.html", arr [
      arr [ str "o2::quality_control_modules::muonchambers::GlobalHistogram", str "classo2_1_1quality__control__modules_1_1muonchambers_1_1GlobalHistogram.html", null ]
    ] ],
    arr [ str "TObjArray", str "classTObjArray.html", arr [
      arr [ str "o2::quality_control::core::MonitorObjectCollection", str "classo2_1_1quality__control_1_1core_1_1MonitorObjectCollection.html", null ]
    ] ],
    arr [ str "TObject", str "classTObject.html", arr [
      arr [ str "o2::quality_control::core::MonitorObject", str "classo2_1_1quality__control_1_1core_1_1MonitorObject.html", null ],
      arr [ str "o2::quality_control::core::QualityObject", str "classo2_1_1quality__control_1_1core_1_1QualityObject.html", null ]
    ] ],
    arr [ str "o2::quality_control::postprocessing::Trigger", str "structo2_1_1quality__control_1_1postprocessing_1_1Trigger.html", null ],
    arr [ str "o2::quality_control::checker::UpdatePolicy", str "structo2_1_1quality__control_1_1checker_1_1UpdatePolicy.html", null ],
    arr [ str "o2::quality_control::checker::UpdatePolicyManager", str "classo2_1_1quality__control_1_1checker_1_1UpdatePolicyManager.html", null ]
  ]

/-- Navigation tree of `navtreedata.js`. -/
def NAVTREE : JsVal :=
  arr [
  arr [ str "QualityControl", str "index.html", arr [
    arr [ str "Advanced topics", str "md_doc_Advanced.html", null ],
    arr [ str "Repository backends benchmark", str "md_doc_benchmark-repo.html", null ],
    arr [ str "Developers' tips", str "md_doc_DevelopersTips.html", null ],
    arr [ str "Frequently asked questions", str "md_doc_FAQ.html", null ],
    arr [ str "Modules development", str "md_doc_ModulesDevelopment.html", null ],
    arr [ str "Post-processing", str "md_doc_PostProcessing.html", null ],
    arr [ str "QuickStart", str "md_doc_QuickStart.html", null ],
    arr [ str "New features", str "md_doc_ReleaseNotesTemplate.html", null ],
    arr [ str "Todo List", str "todo.html", null ],
    arr [ str "Deprecated List", str "deprecated.html", null ],
    arr [ str "Namespaces", null, arr [
      arr [ str "Namespace List", str "namespaces.html", str "namespaces" ],
      arr [ str "Namespace Members", str "namespacemembers.html", arr [
        arr [ str "All", str "namespacemembers.html", null ],
        arr [ str "Functions", str "namespacemembers_func.html", null ]
      ] ]
    ] ],
    arr [ str "Classes", str "annotated.html", arr [
      arr [ str "Class List", str "annotated.html", str "annotated_dup" ],
      arr [ str "Class Index", str "classes.html", null ],
      arr [ str "Class Hierarchy", str "hierarchy.html", str "hierarchy" ],
      arr [ str "Class Members", str "functions.html", arr [
        arr [ str "All", str "functions.html", str "functions_dup" ],
        arr [ str "Functions", str "functions_func.html", str "functions_func" ],
        arr [ str "Variables", str "functions_vars.html", null ]
      ] ]
    ] ],
    arr [ str "Files", null, arr [
      arr [ str "File List", str "files.html", str "files" ]
    ] ]
  ] ]
  ]

/-- Flat index of `navtreedata.js`. -/
def NAVTREEINDEX : JsVal :=
  arr [
  str ".html",
  str "HmpidDecoder_8h.html#a2acf1a8641179166f600f2619e848efe",
  str "TreeReaderPostProcessing_8h.html",
  str "classo2_1_1quality__control_1_1core_1_1MonitorObject.html#ac53e7840318a8658004768f03b6dd2ba",
  str "classo2_1_1quality__control_1_1repository_1_1DummyDatabase.html#a4be81af1dd3c41c50869536e6e3100cc",
  str "classo2_1_1quality__control__modules_1_1ft0_1_1TreeReaderPostProcessing.html#a44fc206029e4e2726258f93edebea714",
  str "classo2_1_1quality__control__modules_1_1mid_1_1RawQcCheck.html#a3e0185fb5e316a1d0f605ed0d305a64f",
  str "classo2_1_1quality__control__modules_1_1muonchambers_1_1TH1MCHReductor.html#ac378fd70af5cc8c89b2d760a2e59783d",
  str "classo2_1_1quality__control__modules_1_1tpc_1_1PID.html#a8bbf471588927612be17f910915b01e0",
  str "runTracksRootFileReaderMFT_8cxx.html",
  str "testCommonReductors_8cxx.html#ab340a5e76af466a5f20ec5500d30a80b"
  ]

def SYNCONMSG : JsVal := str "click to disable panel synchronisation"

def SYNCOFFMSG : JsVal := str "click to enable panel synchronisation"

/-! Reading the tables -/

/-- Elements of an array literal; a value that is no array has none. -/
def JsVal.items : JsVal → List JsVal
  | arr xs => xs
  | _ => []

/-- Display name `n[0]` of an entry (`none`: the component is missing). -/
def nameOf (n : JsVal) : Option JsVal := n.items[0]?

/-- URL `n[1]` of an entry. -/
def urlOf (n : JsVal) : Option JsVal := n.items[1]?

/-- Third component `n[2]` of an entry: `null`, a reference or a child list. -/
def thirdOf (n : JsVal) : Option JsVal := n.items[2]?

mutual
/-- All entries of a table at every nesting depth, in document order: the
elements of the array, each followed by the entries below it. -/
def allNodes : JsVal → List JsVal
  | arr xs => nodesOfList xs
  | _ => []
/-- Entries of a sibling list together with everything below them. -/
def nodesOfList : List JsVal → List JsVal
  | [] => []
  | e :: rest => e :: (childNodes e ++ nodesOfList rest)
/-- Entries below one entry: those of its third component when that is a list. -/
def childNodes : JsVal → List JsVal
  | arr (_ :: _ :: c :: _) => allNodes c
  | _ => []
end

/-- The three tables whose entries are name/URL/children tuples. -/
def tables : List JsVal := [annotated_dup, hierarchy, NAVTREE]

/-! Shape of an entry -/

/-- Test for the literal `null`. -/
def JsVal.isNull : JsVal → Bool
  | null => true
  | _ => false

/-- Test for a string literal. -/
def JsVal.isStr : JsVal → Bool
  | str _ => true
  | _ => false

/-- Test for an array literal. -/
def JsVal.isArr : JsVal → Bool
  | arr _ => true
  | _ => false

/-- An entry is a 3-tuple: an array of exactly three components, of which the
first is a non-empty string, the second `null` or a string, and the third
`null`, a string or an array. -/
def IsEntry (n : JsVal) : Prop :=
  ∃ s u c, n = arr [str s, u, c] ∧ s ≠ "" ∧ (u = null ∨ ∃ t, u = str t) ∧
    (c = null ∨ (∃ r, c = str r) ∨ ∃ kids, c = arr kids)

/-- Executable form of `IsEntry`. -/
def isEntry : JsVal → Bool
  | arr [str s, u, c] => s != "" && (u.isNull || u.isStr) && (c.isNull || c.isStr || c.isArr)
  | _ => false

/-- Child list of an entry: the elements of its third component when that is
an array literal. -/
def kidsOf (n : JsVal) : Option (List JsVal) :=
  match thirdOf n with
  | some (arr kids) => some kids
  | _ => none

/-- Reference of an entry: its third component when that is a string. -/
def refOf (n : JsVal) : Option String :=
  match thirdOf n with
  | some (str r) => some r
  | _ => none

/-- URL of an entry when it is a string (a page path). -/
def pageOf (n : JsVal) : Option String :=
  match urlOf n with
  | some (str u) => some u
  | _ => none

/-- Display name of an entry when it is a string. -/
def labelOf (n : JsVal) : Option String :=
  match nameOf n with
  | some (str s) => some s
  | _ => none

/-! Page paths and references -/

/-- A page path: it ends with `.html`, is longer than `.html`, and contains no
`#` (it names a whole page, not an anchor inside one). -/
def IsPageUrl (s : String) : Prop :=
  ".html".data <:+ s.data ∧ ".html".length < s.length ∧ '#' ∉ s.data

instance (s : String) : Decidable (IsPageUrl s) := by
  unfold IsPageUrl
  infer_instance

/-- Global variables that the three source files define, with their values. -/
def globals : List (String × JsVal) :=
  [("annotated_dup", annotated_dup), ("hierarchy", hierarchy), ("NAVTREE", NAVTREE),
   ("NAVTREEINDEX", NAVTREEINDEX), ("SYNCONMSG", SYNCONMSG), ("SYNCOFFMSG", SYNCOFFMSG)]

/-- Names of the variables that hold a table (an array literal). -/
def tableNames : List String :=
  (globals.filter (fun g => g.2.isArr)).map Prod.fst

/-! The flat index -/

/-- String entries of the flat index, in order. -/
def indexEntries : List String :=
  NAVTREEINDEX.items.filterMap fun v =>
    match v with
    | str s => some s
    | _ => none

/-- Lowercase hexadecimal digit. -/
def isLowerHex (c : Char) : Bool :=
  ('0' ≤ c && c ≤ '9') || ('a' ≤ c && c ≤ 'f')

/-- An anchor: the letter `a` followed by lowercase hexadecimal digits. -/
def IsAnchor (a : String) : Prop :=
  a.data.head? = some 'a' ∧ ∀ c ∈ a.data, isLowerHex c = true

instance (a : String) : Decidable (IsAnchor a) := by
  unfold IsAnchor
  infer_instance

/-- Form of an index entry: `p ++ ".html"` or `p ++ ".html#" ++ a`, where `p`
contains neither `#` nor `.html` and `a` is an anchor. -/
def IsIndexEntry (e : String) : Prop :=
  ∃ p : String, '#' ∉ p.data ∧ ¬ ".html".data <:+: p.data ∧
    (e = p ++ ".html" ∨ ∃ a : String, IsAnchor a ∧ e = p ++ ".html#" ++ a)

/-- Part of an index entry before its first `.html`: what precedes the first
`#`, less its last five characters. -/
def stemOf (e : String) : String :=
  ⟨(e.data.takeWhile fun c => c != '#').dropLast.dropLast.dropLast.dropLast.dropLast⟩

/-- Part of an index entry after its first `#`. -/
def anchorOf (e : String) : String :=
  ⟨(e.data.dropWhile fun c => c != '#').drop 1⟩

/-- UTF-16 code units of a character: JavaScript strings are sequences of 16-bit
code units, a character beyond the basic plane is a surrogate pair. -/
def utf16 (c : Char) : List Nat :=
  if c.toNat < 65536 then [c.toNat]
  else [55296 + (c.toNat - 65536) / 1024, 56320 + (c.toNat - 65536) % 1024]

/-- Code units of a string literal. -/
def codeUnits (s : String) : List Nat :=
  (s.data.map utf16).flatten

/-- JavaScript's `a < b` on strings: the first differing code unit decides, and a
proper prefix is smaller. -/
def jsLt : List Nat → List Nat → Bool
  | _, [] => false
  | [], _ :: _ => true
  | a :: as, b :: bs => decide (a < b) || (a == b && jsLt as bs)

/-- JavaScript's `a <= b` on strings: the negation of `b < a`. -/
def jsLe (a b : List Nat) : Bool := !jsLt b a

/-- The flat index as code-unit sequences. -/
def indexUnits : List (List Nat) := indexEntries.map codeUnits

/-- Position `i` is selected for the URL `u`: the entry at `i` is less than or
equal to `u`, and `i` is the last position or `u` is smaller than the next
entry. -/
def Selects (u : List Nat) (i : Nat) : Prop :=
  ∃ e, indexUnits[i]? = some e ∧ jsLe e u = true ∧
    (i + 1 = indexUnits.length ∨ ∃ e', indexUnits[i + 1]? = some e' ∧ jsLt u e' = true)

/-- Whether the entry at position `i` of `idx` exists and is less than or equal
to `u`. -/
def leAt (idx : List (List Nat)) (u : List Nat) (i : Nat) : Bool :=
  match idx[i]? with
  | some e => jsLe e u
  | none => false

/-- Greatest position below `n` whose entry is less than or equal to `u`. -/
def lastLeBelow (idx : List (List Nat)) (u : List Nat) : Nat → Option Nat
  | 0 => none
  | n + 1 => if leAt idx u n then some n else lastLeBelow idx u n

/-- Modelled from the spec: the index lookup of the documentation viewer, whose
script is not among the source files.  It selects the position of the last entry
of the index that is less than or equal to `u`; `none` is the outcome
"not found". -/
def lookupIndex (idx : List (List Nat)) (u : List Nat) : Option Nat :=
  lastLeBelow idx u idx.length

/-! Sibling lists and name paths -/

/-- Sibling lists of a table: its top-level array and the child list of every
entry at every depth. -/
def siblingLists (T : JsVal) : List (List JsVal) :=
  T.items :: (allNodes T).filterMap kidsOf

/-- Entries that a path of display names leads to, starting in a sibling list:
the first name selects entries of the list, the rest of the path is followed in
their child lists. -/
def resolve : List JsVal → List String → List JsVal
  | _, [] => []
  | sibs, [x] => sibs.filter fun n => nameOf n = some (str x)
  | sibs, x :: y :: rest =>
    (sibs.filter fun n => nameOf n = some (str x)).flatMap fun n =>
      resolve ((kidsOf n).getD []) (y :: rest)


/-! Child lists, escaped names and name order -/

/-- Child lists of a table: the child list of every entry at every depth (the
top-level array itself is not among them). -/
def childLists (T : JsVal) : List (List JsVal) :=
  (allNodes T).filterMap kidsOf

/-- Escaping of a qualified name as the specification describes it for page
paths: every `_` becomes `__`, and every scope separator, `::` or (when `dot` is
set) `.`, becomes `_1_1`; all other characters are kept. -/
def escChars (dot : Bool) : List Char → List Char
  | [] => []
  | c :: rest =>
    if c = '_' then '_' :: '_' :: escChars dot rest
    else if c = '.' ∧ dot = true then '_' :: '1' :: '_' :: '1' :: escChars dot rest
    else
      match rest with
      | [] => [c]
      | d :: rest' =>
        if c = ':' ∧ d = ':' then '_' :: '1' :: '_' :: '1' :: escChars dot rest'
        else c :: escChars dot (d :: rest')

/-- Escaping with `::` and `.` as scope separators. -/
def escScoped (s : String) : String := ⟨escChars true s.data⟩

/-- Escaping with `::` as the only scope separator. -/
def escColons (s : String) : String := ⟨escChars false s.data⟩

/-- Path of display names joined by `::`. -/
def qualified : List String → String
  | [] => ""
  | [x] => x
  | x :: y :: rest => x ++ "::" ++ qualified (y :: rest)

mutual
/-- All entries of a table at every depth, each with the display names on the
path from the top level down to it; `pre` is the path of the enclosing entry. -/
def nodesWithPath (pre : List String) : JsVal → List (List String × JsVal)
  | arr xs => nodesWithPathList pre xs
  | _ => []
/-- Entries of a sibling list, and everything below them, with their paths. -/
def nodesWithPathList (pre : List String) : List JsVal → List (List String × JsVal)
  | [] => []
  | e :: rest =>
    (pre ++ (labelOf e).toList, e) ::
      (belowWithPath (pre ++ (labelOf e).toList) e ++ nodesWithPathList pre rest)
/-- Entries below one entry, with their paths. -/
def belowWithPath (pre : List String) : JsVal → List (List String × JsVal)
  | arr (_ :: _ :: c :: _) => nodesWithPath pre c
  | _ => []
end

/-- Lower-case form of a code unit: `A`..`Z` are mapped to `a`..`z`. -/
def lowerUnit (c : Nat) : Nat :=
  if 65 ≤ c ∧ c ≤ 90 then c + 32 else c

/-- Display name of `a` is smaller than that of `b`, by character code. -/
def nameLt (a b : JsVal) : Bool :=
  match labelOf a, labelOf b with
  | some x, some y => jsLt (codeUnits x) (codeUnits y)
  | _, _ => false

/-- Display name of `a` is smaller than that of `b`, by character code after
mapping `A`..`Z` to `a`..`z`. -/
def nameLtCI (a b : JsVal) : Bool :=
  match labelOf a, labelOf b with
  | some x, some y => jsLt ((codeUnits x).map lowerUnit) ((codeUnits y).map lowerUnit)
  | _, _ => false

/-! Lemmas on the accessors -/

theorem JsVal.isNull_iff (v : JsVal) : v.isNull = true ↔ v = null := by
  cases v <;> simp [JsVal.isNull]

theorem JsVal.isStr_iff (v : JsVal) : v.isStr = true ↔ ∃ s, v = str s := by
  cases v <;> simp [JsVal.isStr]

theorem JsVal.isArr_iff (v : JsVal) : v.isArr = true ↔ ∃ xs, v = arr xs := by
  cases v <;> simp [JsVal.isArr]

theorem isEntry_sound (n : JsVal) (h : isEntry n = true) : IsEntry n := by
  unfold isEntry at h
  split at h
  · rename_i s u c
    simp only [Bool.and_eq_true, Bool.or_eq_true, bne_iff_ne, ne_eq,
      JsVal.isNull_iff, JsVal.isStr_iff, JsVal.isArr_iff] at h
    exact ⟨s, u, c, rfl, h.1.1, h.1.2, by tauto⟩
  · cases h

theorem all_isEntry : ∀ T ∈ tables, (allNodes T).all isEntry = true := by decide!

theorem kidsOf_eq_some (n : JsVal) (kids : List JsVal) :
    kidsOf n = some kids ↔ thirdOf n = some (arr kids) := by
  unfold kidsOf
  split
  · rename_i ks h
    rw [h]
    constructor
    · intro e; cases e; rfl
    · intro e; cases e; rfl
  · rename_i h
    constructor
    · intro e; cases e
    · intro e; exact absurd e (h kids)

theorem kidsOf_isSome (n : JsVal) :
    (kidsOf n).isSome = true ↔ ∃ kids, thirdOf n = some (arr kids) := by
  rw [Option.isSome_iff_exists]
  exact exists_congr (kidsOf_eq_some n)

theorem kidsOf_eq_none (n : JsVal) :
    kidsOf n = none ↔ ¬ ∃ kids, thirdOf n = some (arr kids) := by
  rw [← kidsOf_isSome]
  cases kidsOf n <;> simp

theorem pageOf_eq_some (n : JsVal) (u : String) :
    pageOf n = some u ↔ urlOf n = some (str u) := by
  unfold pageOf
  split
  · rename_i v h
    rw [h]
    constructor
    · intro e; cases e; rfl
    · intro e; cases e; rfl
  · rename_i h
    constructor
    · intro e; cases e
    · intro e; exact absurd e (h u)

theorem pageOf_isSome (n : JsVal) :
    (pageOf n).isSome = true ↔ ∃ u, urlOf n = some (str u) := by
  rw [Option.isSome_iff_exists]
  exact exists_congr (pageOf_eq_some n)

/-! Sizes of the tables -/

theorem allNodes_annotated_dup_length : (allNodes annotated_dup).length = 175 := by decide!

theorem allNodes_hierarchy_length : (allNodes hierarchy).length = 180 := by decide!

theorem allNodes_NAVTREE_length : (allNodes NAVTREE).length = 26 := by decide!

/-! Shape of the tables -/

/-- C1: every entry at every nesting depth of `annotated_dup`, `hierarchy` and
`NAVTREE` is an array of exactly three components: a non-empty string (the
display name), then `null` or a string (the URL), then `null`, a string (a
reference) or an array (the child list, whose elements are entries again). -/
theorem entries_are_triples (T : JsVal) (hT : T ∈ tables) (n : JsVal)
    (hn : n ∈ allNodes T) : IsEntry n :=
  isEntry_sound n (List.all_eq_true.mp (all_isEntry T hT) n hn)

/-- The shape of C1 at the entry `Class List` of `NAVTREE`. -/
theorem entries_are_triples_witness :
    IsEntry (arr [str "Class List", str "annotated.html", str "annotated_dup"]) :=
  entries_are_triples NAVTREE (by decide!)
    (arr [str "Class List", str "annotated.html", str "annotated_dup"]) (by decide!)

theorem annotated_dup_url_check :
    ∀ n ∈ allNodes annotated_dup,
      (urlOf n = some null ↔ (kidsOf n).isSome = true) ∧
      ((kidsOf n).isSome = false → (pageOf n).isSome = true) := by decide!

/-- C2: in `annotated_dup`, at every depth, the URL of an entry is `null`
exactly when its third component is a child list; an entry without child list
(a leaf) has a string as URL, its documentation page. -/
theorem annotated_dup_url_null_iff_children (n : JsVal) (hn : n ∈ allNodes annotated_dup) :
    (urlOf n = some null ↔ ∃ kids, thirdOf n = some (arr kids)) ∧
    ((¬ ∃ kids, thirdOf n = some (arr kids)) → ∃ u, urlOf n = some (str u)) := by
  have h := annotated_dup_url_check n hn
  rw [← kidsOf_isSome, ← pageOf_isSome]
  refine ⟨h.1, fun hk => h.2 ?_⟩
  simpa using hk

/-- The equivalence of C2 at the top-level entry `Sampa` of `annotated_dup`. -/
theorem annotated_dup_url_null_iff_children_witness :
    urlOf (arr [str "Sampa", null, arr [arr [str "SampaHeaderStruct",
        str "structSampa_1_1SampaHeaderStruct.html",
        str "structSampa_1_1SampaHeaderStruct"]]]) = some null ↔
      ∃ kids, thirdOf (arr [str "Sampa", null, arr [arr [str "SampaHeaderStruct",
        str "structSampa_1_1SampaHeaderStruct.html",
        str "structSampa_1_1SampaHeaderStruct"]]]) = some (arr kids) :=
  (annotated_dup_url_null_iff_children _ (by decide!)).1

theorem hierarchy_levels_check :
    (∀ e ∈ hierarchy.items, thirdOf e = some null ∨
      ((kidsOf e).isSome = true ∧ kidsOf e ≠ some [] ∧
        ∀ k ∈ (kidsOf e).getD [],
          urlOf k ≠ none ∧ urlOf k ≠ some null ∧ thirdOf k = some null)) ∧
    (∃ e ∈ hierarchy.items, (kidsOf e).isSome = true) ∧
    (∀ n ∈ allNodes hierarchy, refOf n = none) := by decide!

theorem refOf_eq_none (n : JsVal) (h : refOf n = none) (r : String) :
    thirdOf n ≠ some (str r) := by
  intro e
  unfold refOf at h
  rw [e] at h
  cases h

/-- C3: `hierarchy` is exactly two levels deep.  The third component of every
top-level entry is `null` or a non-empty list; every entry of such a list has
a non-null URL and `null` as third component; some top-level entry does have a
list; and no third component at any depth is a string reference. -/
theorem hierarchy_two_levels :
    (∀ e ∈ hierarchy.items, thirdOf e = some null ∨
      ∃ kids, thirdOf e = some (arr kids) ∧ kids ≠ [] ∧
        ∀ k ∈ kids, (∃ u, urlOf k = some u ∧ u ≠ null) ∧ thirdOf k = some null) ∧
    (∃ e ∈ hierarchy.items, ∃ kids, thirdOf e = some (arr kids)) ∧
    (∀ n ∈ allNodes hierarchy, ∀ r, thirdOf n ≠ some (str r)) := by
  obtain ⟨h1, h2, h3⟩ := hierarchy_levels_check
  refine ⟨fun e he => ?_, ?_, fun n hn r => refOf_eq_none n (h3 n hn) r⟩
  · rcases h1 e he with h | ⟨hs, hne, hk⟩
    · exact Or.inl h
    · obtain ⟨kids, hkids⟩ := Option.isSome_iff_exists.mp hs
      refine Or.inr ⟨kids, (kidsOf_eq_some e kids).mp hkids, ?_, fun k hkm => ?_⟩
      · intro e0
        exact hne (by rw [hkids, e0])
      · have hk' := hk k (by rw [hkids]; exact hkm)
        refine ⟨?_, hk'.2.2⟩
        cases hu : urlOf k with
        | none => exact absurd hu hk'.1
        | some u =>
          refine ⟨u, rfl, fun e0 => hk'.2.1 ?_⟩
          rw [hu, e0]
  · obtain ⟨e, he, hs⟩ := h2
    exact ⟨e, he, (kidsOf_isSome e).mp hs⟩

theorem url_null_has_children_check :
    ∀ T ∈ tables, ∀ n ∈ allNodes T, urlOf n = some null → (kidsOf n).isSome = true := by
  decide!

theorem leaf_third_check :
    ∀ T ∈ tables, ∀ n ∈ allNodes T, kidsOf n = none →
      (thirdOf n ≠ some null → urlOf n ≠ some null) ∧ urlOf n ≠ some null := by
  decide!

/-- C5: in `annotated_dup`, `hierarchy` and `NAVTREE`, an entry that is a leaf
(its third component is no child list) and has `null` as URL has `null` as third
component as well.  Equivalently, read from the third component: a leaf whose
third component is not `null` (a reference) has a URL that is not `null`.  The
last part records that in these tables no leaf at all has `null` as URL, so it is
the second reading that the entries exercise. -/
theorem leaf_without_url_has_null_third (T : JsVal) (hT : T ∈ tables) (n : JsVal)
    (hn : n ∈ allNodes T) (hleaf : ¬ ∃ kids, thirdOf n = some (arr kids)) :
    (urlOf n = some null → thirdOf n = some null) ∧
    (thirdOf n ≠ some null → urlOf n ≠ some null) ∧
    urlOf n ≠ some null := by
  obtain ⟨h1, h2⟩ := leaf_third_check T hT n hn ((kidsOf_eq_none n).mpr hleaf)
  refine ⟨fun hu => ?_, h1, h2⟩
  by_contra hne
  exact h1 hne hu

/-- The statement of C5 at the leaf `File List` of `NAVTREE`, whose third
component is the reference `files`: its URL is not `null`. -/
theorem leaf_without_url_has_null_third_witness :
    thirdOf (arr [str "File List", str "files.html", str "files"]) ≠ some null ∧
    urlOf (arr [str "File List", str "files.html", str "files"]) ≠ some null :=
  ⟨by decide!,
    (leaf_without_url_has_null_third NAVTREE (by decide!)
      (arr [str "File List", str "files.html", str "files"]) (by decide!)
      (by rw [← kidsOf_eq_none]; decide!)).2.1 (by decide!)⟩

theorem page_url_check :
    ∀ T ∈ tables, ∀ n ∈ allNodes T,
      urlOf n = some null ∨ ((pageOf n).isSome = true ∧ ∀ s ∈ pageOf n, IsPageUrl s) := by
  decide!

/-- C6: every non-null URL in `annotated_dup`, `hierarchy` and `NAVTREE`, at any
depth, is a string that ends with `.html`, is longer than `.html` and contains
no `#`. -/
theorem urls_are_page_paths (T : JsVal) (hT : T ∈ tables) (n : JsVal)
    (hn : n ∈ allNodes T) (u : JsVal) (hu : urlOf n = some u) (hne : u ≠ null) :
    ∃ s, u = str s ∧ IsPageUrl s := by
  rcases page_url_check T hT n hn with h | ⟨hs, hp⟩
  · rw [hu] at h
    exact absurd (Option.some.inj h) hne
  · obtain ⟨s, hs'⟩ := Option.isSome_iff_exists.mp hs
    have hus := (pageOf_eq_some n s).mp hs'
    rw [hu] at hus
    exact ⟨s, Option.some.inj hus, hp s (by rw [hs']; exact rfl)⟩

/-- The URL form of C6 at the entry `Class Index` of `NAVTREE`. -/
theorem urls_are_page_paths_witness :
    ∃ s, str "classes.html" = str s ∧ IsPageUrl s :=
  urls_are_page_paths NAVTREE (by decide!)
    (arr [str "Class Index", str "classes.html", null]) (by decide!)
    (str "classes.html") (by decide!) (by decide!)

/-- C8: `NAVTREE` is a tree.  Its top-level array holds exactly one entry, named
`QualityControl`, with URL `index.html` and a non-empty child list, and every
other entry of `NAVTREE` lies below that root. -/
theorem NAVTREE_single_root :
    ∃ root, NAVTREE = arr [root] ∧
      nameOf root = some (str "QualityControl") ∧
      urlOf root = some (str "index.html") ∧
      (∃ kids, thirdOf root = some (arr kids) ∧ kids ≠ []) ∧
      ∀ n ∈ allNodes NAVTREE, n ≠ root → n ∈ childNodes root :=
  ⟨NAVTREE.items.headD null, by decide!, by decide!, by decide!,
    ⟨(kidsOf (NAVTREE.items.headD null)).getD [], by decide!, by decide!⟩, by decide!⟩

/-- C9: the string references in `NAVTREE` are, in document order, `namespaces`,
`annotated_dup`, `hierarchy`, `functions_dup`, `functions_func` and `files`,
each once.  The one entry named `Class List` refers to `annotated_dup`, the one
named `Class Hierarchy` to `hierarchy`, and these two are exactly the references
that name a table variable of the source files. -/
theorem NAVTREE_references :
    (allNodes NAVTREE).filterMap refOf =
      ["namespaces", "annotated_dup", "hierarchy", "functions_dup", "functions_func",
        "files"] ∧
    ((allNodes NAVTREE).filter (fun n => labelOf n = some "Class List")).map refOf =
      [some "annotated_dup"] ∧
    ((allNodes NAVTREE).filter (fun n => labelOf n = some "Class Hierarchy")).map refOf =
      [some "hierarchy"] ∧
    tableNames = ["annotated_dup", "hierarchy", "NAVTREE", "NAVTREEINDEX"] ∧
    ((allNodes NAVTREE).filterMap refOf).filter (fun r => r ∈ tableNames) =
      ["annotated_dup", "hierarchy"] := by
  decide!

/-! The flat index -/

theorem index_entry_check :
    ∀ e ∈ indexEntries,
      '#' ∉ (stemOf e).data ∧ ¬ ".html".data <:+: (stemOf e).data ∧
      (e = stemOf e ++ ".html" ∨ (IsAnchor (anchorOf e) ∧
        e = stemOf e ++ ".html#" ++ anchorOf e)) := by
  decide!

/-- C7: `NAVTREEINDEX` is a flat list of 11 strings; every entry has the form
`p ++ ".html"` or `p ++ ".html#" ++ a`, where `p` contains neither `#` nor
`.html` and `a` is a non-empty anchor, the letter `a` followed by lowercase
hexadecimal digits; the first entry is `.html` itself. -/
theorem NAVTREEINDEX_form :
    NAVTREEINDEX = arr (indexEntries.map str) ∧
    indexEntries.length = 11 ∧
    (∀ e ∈ indexEntries, IsIndexEntry e) ∧
    indexEntries.head? = some ".html" := by
  refine ⟨by decide!, by decide!, fun e he => ?_, by decide!⟩
  obtain ⟨h1, h2, h3⟩ := index_entry_check e he
  refine ⟨stemOf e, h1, h2, ?_⟩
  rcases h3 with h | ⟨ha, h⟩
  · exact Or.inl h
  · exact Or.inr ⟨anchorOf e, ha, h⟩

/-! Order of strings and the index lookup -/

theorem jsLt_trans : ∀ a b c : List Nat,
    jsLt a b = true → jsLt b c = true → jsLt a c = true
  | _, [], _ => by simp [jsLt]
  | _, _ :: _, [] => by simp [jsLt]
  | [], _ :: _, _ :: _ => by simp [jsLt]
  | a :: as, b :: bs, c :: cs => by
    simp only [jsLt, Bool.or_eq_true, Bool.and_eq_true, decide_eq_true_eq, beq_iff_eq]
    intro h1 h2
    rcases h1 with h1 | ⟨h1, h1'⟩ <;> rcases h2 with h2 | ⟨h2, h2'⟩
    · exact Or.inl (by omega)
    · exact Or.inl (by omega)
    · exact Or.inl (by omega)
    · exact Or.inr ⟨by omega, jsLt_trans as bs cs h1' h2'⟩

theorem jsLe_eq_false (a b : List Nat) : jsLe a b = false ↔ jsLt b a = true := by
  unfold jsLe
  cases jsLt b a <;> simp

theorem leAt_iff (idx : List (List Nat)) (u : List Nat) (i : Nat) :
    leAt idx u i = true ↔ ∃ e, idx[i]? = some e ∧ jsLe e u = true := by
  unfold leAt
  cases idx[i]? <;> simp

theorem leAt_mono {idx : List (List Nat)}
    (hs : idx.Pairwise fun a b => jsLt a b = true) (u : List Nat) {k j : Nat}
    (hkj : k ≤ j) (h : leAt idx u j = true) : leAt idx u k = true := by
  obtain ⟨e, he, hle⟩ := (leAt_iff idx u j).mp h
  obtain ⟨hj, hje⟩ := List.getElem?_eq_some.mp he
  rcases Nat.eq_or_lt_of_le hkj with hk | hk
  · rw [hk]; exact h
  · have hlt : jsLt idx[k] idx[j] = true :=
      List.pairwise_iff_getElem.mp hs k j (by omega) hj hk
    refine (leAt_iff idx u k).mpr ⟨idx[k], List.getElem?_eq_getElem (by omega), ?_⟩
    cases hc : jsLe idx[k] u with
    | true => rfl
    | false =>
      have h1 := jsLt_trans u idx[k] idx[j] ((jsLe_eq_false _ _).mp hc) hlt
      rw [hje] at h1
      have h2 : jsLe e u = false := (jsLe_eq_false e u).mpr h1
      rw [hle] at h2
      cases h2

theorem lastLeBelow_eq_some (idx : List (List Nat)) (u : List Nat) :
    ∀ n i, lastLeBelow idx u n = some i ↔
      (i < n ∧ leAt idx u i = true ∧ ∀ j, i < j → j < n → leAt idx u j = false)
  | 0, i => by simp [lastLeBelow]
  | n + 1, i => by
    unfold lastLeBelow
    by_cases hn : leAt idx u n = true
    · rw [if_pos hn]
      constructor
      · intro e
        cases e
        exact ⟨by omega, hn, fun j h1 h2 => by omega⟩
      · rintro ⟨h1, h2, h3⟩
        rcases Nat.lt_or_ge i n with hi | hi
        · have := h3 n hi (by omega)
          rw [hn] at this
          cases this
        · have : i = n := by omega
          rw [this]
    · rw [if_neg hn, lastLeBelow_eq_some idx u n i]
      have hn' : leAt idx u n = false := by simpa using hn
      constructor
      · rintro ⟨h1, h2, h3⟩
        refine ⟨by omega, h2, fun j hj1 hj2 => ?_⟩
        rcases Nat.lt_or_ge j n with hj | hj
        · exact h3 j hj1 hj
        · have : j = n := by omega
          rw [this]; exact hn'
      · rintro ⟨h1, h2, h3⟩
        have hne : i ≠ n := by
          intro e
          rw [e, hn'] at h2
          cases h2
        exact ⟨by omega, h2, fun j hj1 hj2 => h3 j hj1 (by omega)⟩

theorem lastLeBelow_eq_none (idx : List (List Nat)) (u : List Nat) :
    ∀ n, lastLeBelow idx u n = none ↔ ∀ j, j < n → leAt idx u j = false
  | 0 => by simp [lastLeBelow]
  | n + 1 => by
    unfold lastLeBelow
    by_cases hn : leAt idx u n = true
    · rw [if_pos hn]
      constructor
      · intro e; cases e
      · intro h
        have := h n (by omega)
        rw [hn] at this
        cases this
    · rw [if_neg hn, lastLeBelow_eq_none idx u n]
      have hn' : leAt idx u n = false := by simpa using hn
      constructor
      · intro h j hj
        rcases Nat.lt_or_ge j n with hj' | hj'
        · exact h j hj'
        · have : j = n := by omega
          rw [this]; exact hn'
      · intro h j hj
        exact h j (by omega)

theorem indexUnits_sorted : indexUnits.Pairwise fun a b => jsLt a b = true := by
  decide!

theorem indexUnits_length : indexUnits.length = 11 := by decide!

theorem indexUnits_first : indexUnits[0]? = some (codeUnits ".html") := by decide!

theorem selects_iff_lookup (u : List Nat) (i : Nat) :
    Selects u i ↔ lookupIndex indexUnits u = some i := by
  unfold lookupIndex
  rw [lastLeBelow_eq_some]
  constructor
  · rintro ⟨e, he, hle, hnext⟩
    have hi := (List.getElem?_eq_some.mp he).1
    refine ⟨hi, (leAt_iff _ _ _).mpr ⟨e, he, hle⟩, fun j hij _ => ?_⟩
    cases hc : leAt indexUnits u j with
    | false => rfl
    | true =>
      have h1 := leAt_mono indexUnits_sorted u (show i + 1 ≤ j by omega) hc
      obtain ⟨e1, he1, hle1⟩ := (leAt_iff _ _ _).mp h1
      rcases hnext with hlast | ⟨e2, he2, hlt⟩
      · have := (List.getElem?_eq_some.mp he1).1
        omega
      · rw [he1] at he2
        cases he2
        have h2 : jsLe e1 u = false := (jsLe_eq_false e1 u).mpr hlt
        rw [hle1] at h2
        cases h2
  · rintro ⟨hi, hle, hgt⟩
    obtain ⟨e, he, hle'⟩ := (leAt_iff _ _ _).mp hle
    refine ⟨e, he, hle', ?_⟩
    rcases Nat.lt_or_ge (i + 1) indexUnits.length with hlt | hge
    · refine Or.inr ⟨indexUnits[i + 1], List.getElem?_eq_getElem hlt, ?_⟩
      have h1 := hgt (i + 1) (by omega) hlt
      unfold leAt at h1
      rw [List.getElem?_eq_getElem hlt] at h1
      exact (jsLe_eq_false _ _).mp h1
    · exact Or.inl (by omega)

theorem lookup_none_iff (u : List Nat) :
    lookupIndex indexUnits u = none ↔ jsLt u (codeUnits ".html") = true := by
  unfold lookupIndex
  rw [lastLeBelow_eq_none]
  have h0 : leAt indexUnits u 0 = jsLe (codeUnits ".html") u := by
    unfold leAt
    rw [indexUnits_first]
  constructor
  · intro h
    have := h 0 (by rw [indexUnits_length]; omega)
    rw [h0] at this
    exact (jsLe_eq_false _ _).mp this
  · intro h j _
    cases hc : leAt indexUnits u j with
    | false => rfl
    | true =>
      have h1 := leAt_mono indexUnits_sorted u (Nat.zero_le j) hc
      rw [h0, (jsLe_eq_false _ _).mpr h] at h1
      cases h1

/-- C4: for every URL `u` (a sequence of code units) the index lookup, which
selects the position of the last entry of `NAVTREEINDEX` that is less than or
equal to `u`, is well defined.  If `u` is greater than or equal to the first
entry `.html`, exactly one position `i` has its entry less than or equal to `u`
and is last or has `u` smaller than the next entry; if `u` is smaller than
`.html` there is no such position.  The lookup returns that position in the
first case, and "not found" exactly in the second. -/
theorem index_lookup_well_defined (u : List Nat) :
    (jsLe (codeUnits ".html") u = true → ∃! i, Selects u i) ∧
    (jsLt u (codeUnits ".html") = true → ¬ ∃ i, Selects u i) ∧
    (∀ i, lookupIndex indexUnits u = some i ↔ Selects u i) ∧
    (lookupIndex indexUnits u = none ↔ jsLt u (codeUnits ".html") = true) := by
  refine ⟨fun h => ?_, fun h => ?_, fun i => (selects_iff_lookup u i).symm,
    lookup_none_iff u⟩
  · cases hl : lookupIndex indexUnits u with
    | none =>
      have h1 := (lookup_none_iff u).mp hl
      have h2 := (jsLe_eq_false _ _).mpr h1
      rw [h] at h2
      cases h2
    | some i =>
      refine ⟨i, (selects_iff_lookup u i).mpr hl, fun j hj => ?_⟩
      have h3 := (selects_iff_lookup u j).mp hj
      rw [hl] at h3
      exact (Option.some.inj h3).symm
  · rintro ⟨i, hi⟩
    have h1 := (selects_iff_lookup u i).mp hi
    rw [(lookup_none_iff u).mpr h] at h1
    cases h1

/-! Sibling lists and name paths -/

theorem filter_length_le_one {α β : Type} [DecidableEq β] (f : α → β) (a : β) :
    ∀ L : List α, (L.map f).Nodup → (L.filter fun n => decide (f n = a)).length ≤ 1
  | [], _ => by simp
  | n :: L, h => by
    rw [List.map_cons, List.nodup_cons] at h
    by_cases hn : f n = a
    · have hnil : (L.filter fun m => decide (f m = a)) = [] := by
        rw [List.filter_eq_nil_iff]
        intro m hm hfm
        have hfm' : f m = a := by simpa using hfm
        exact h.1 (List.mem_map.mpr ⟨m, hm, by rw [hfm', hn]⟩)
      rw [List.filter_cons_of_pos (by simpa using hn), hnil]
      simp
    · rw [List.filter_cons_of_neg (by simpa using hn)]
      exact filter_length_le_one f a L h.2

theorem resolve_nil : ∀ path : List String, resolve [] path = []
  | [] => by simp [resolve]
  | [_] => by simp [resolve]
  | _ :: _ :: _ => by simp [resolve]

theorem resolve_length_le_one (S : List (List JsVal))
    (hnd : ∀ L ∈ S, (L.map nameOf).Nodup)
    (hcl : ∀ L ∈ S, ∀ n ∈ L, ∀ kids, kidsOf n = some kids → kids ∈ S) :
    ∀ (path : List String) (L : List JsVal), L ∈ S → (resolve L path).length ≤ 1
  | [], L, _ => by simp [resolve]
  | [x], L, hL => by
    unfold resolve
    exact filter_length_le_one nameOf (some (str x)) L (hnd L hL)
  | x :: y :: rest, L, hL => by
    unfold resolve
    have hf := filter_length_le_one nameOf (some (str x)) L (hnd L hL)
    match hm : (L.filter fun n => decide (nameOf n = some (str x))), hf with
    | [], _ => simp
    | [n], _ =>
      have hnL : n ∈ L := by
        have : n ∈ L.filter fun n => decide (nameOf n = some (str x)) := by
          rw [hm]; exact List.mem_singleton.mpr rfl
        exact (List.mem_filter.mp this).1
      simp only [List.flatMap_cons, List.flatMap_nil, List.append_nil]
      cases hk : kidsOf n with
      | none =>
        rw [Option.getD_none, resolve_nil]
        simp
      | some kids =>
        rw [Option.getD_some]
        exact resolve_length_le_one S hnd hcl (y :: rest) kids (hcl L hL n hnL kids hk)
    | _ :: _ :: _, h =>
      simp at h

theorem sibling_lists_check :
    ∀ T ∈ [annotated_dup, NAVTREE],
      (∀ L ∈ siblingLists T, (L.map nameOf).Nodup) ∧
      (∀ L ∈ siblingLists T, ∀ n ∈ L, (kidsOf n).getD [] ∈ siblingLists T ∨
        kidsOf n = none) := by
  decide!

/-- C10: in `annotated_dup` and in `NAVTREE`, the display names within every
sibling list (the top-level array and every child list at every depth) are
pairwise distinct; hence a path of display names from the top level leads to at
most one entry. -/
theorem sibling_names_distinct (T : JsVal) (hT : T ∈ [annotated_dup, NAVTREE]) :
    (∀ L ∈ siblingLists T, (L.map nameOf).Nodup) ∧
    (∀ path : List String, (resolve T.items path).length ≤ 1) := by
  obtain ⟨h1, h2⟩ := sibling_lists_check T hT
  refine ⟨h1, fun path => ?_⟩
  refine resolve_length_le_one (siblingLists T) h1 (fun L hL n hn kids hk => ?_) path
    T.items (List.mem_cons_self _ _)
  rcases h2 L hL n hn with h | h
  · rw [hk] at h
    exact h
  · rw [hk] at h
    cases h

/-- The distinctness of C10 for the table `NAVTREE`. -/
theorem sibling_names_distinct_witness :
    (∀ L ∈ siblingLists NAVTREE, (L.map nameOf).Nodup) ∧
    (∀ path : List String, (resolve NAVTREE.items path).length ≤ 1) :=
  sibling_names_distinct NAVTREE (by decide!)

/-! Identification of entries, UI strings and order of the index -/

/-- C11: in `hierarchy`, no two top-level entries agree in both display name and
URL, and the display names within every child list are pairwise distinct.  The
display name alone does not identify a top-level entry: two of them are named
`Task`, the first with a URL and the second with `null`. -/
theorem hierarchy_parents_identified :
    (hierarchy.items.map fun e => (nameOf e, urlOf e)).Nodup ∧
    (∀ L ∈ childLists hierarchy, (L.map nameOf).Nodup) ∧
    ¬ (hierarchy.items.map nameOf).Nodup ∧
    (hierarchy.items.filter fun e => nameOf e = some (str "Task")).map urlOf =
      [some (str "classo2_1_1framework_1_1Task.html"), some null] := by
  decide!

/-- C12: the two UI strings are `click to disable panel synchronisation`
(`SYNCONMSG`) and `click to enable panel synchronisation` (`SYNCOFFMSG`); they
are distinct and differ only in the word `disable` / `enable`. -/
theorem sync_messages :
    SYNCONMSG = str "click to disable panel synchronisation" ∧
    SYNCOFFMSG = str "click to enable panel synchronisation" ∧
    SYNCONMSG ≠ SYNCOFFMSG ∧
    ∃ pre suf : String,
      SYNCONMSG = str (pre ++ "disable" ++ suf) ∧
      SYNCOFFMSG = str (pre ++ "enable" ++ suf) :=
  ⟨by decide!, by decide!, by decide!, "click to ", " panel synchronisation",
    by decide!, by decide!⟩

theorem indexEntries_sorted :
    indexEntries.Pairwise fun a b => jsLt (codeUnits a) (codeUnits b) = true := by
  decide!

/-- C13: `NAVTREEINDEX` is strictly increasing: each entry is smaller than the
next one when strings are compared by code unit, as JavaScript's `<` does
(case-sensitively); and the index has no duplicate entries. -/
theorem NAVTREEINDEX_strictly_increasing :
    (∀ i a b, indexEntries[i]? = some a → indexEntries[i + 1]? = some b →
      jsLt (codeUnits a) (codeUnits b) = true) ∧
    indexEntries.Nodup := by
  refine ⟨fun i a b ha hb => ?_, by decide!⟩
  obtain ⟨hi, hia⟩ := List.getElem?_eq_some.mp ha
  obtain ⟨hj, hjb⟩ := List.getElem?_eq_some.mp hb
  have h := List.pairwise_iff_getElem.mp indexEntries_sorted i (i + 1) hi hj (by omega)
  rw [hia, hjb] at h
  exact h

/-! Entries without a page, and references -/

theorem null_url_check :
    ∀ T ∈ tables, ∀ n ∈ allNodes T,
      (urlOf n = some null → (kidsOf n).isSome = true) ∧
      (kidsOf n = none → (pageOf n).isSome = true) ∧
      kidsOf n ≠ some [] := by
  decide!

/-- C14: in `annotated_dup`, `hierarchy` and `NAVTREE`, every entry whose URL is
`null` has a non-empty child list as third component; an entry without child
list (a leaf) has a page path as URL; and no child list is empty. -/
theorem url_null_has_nonempty_children (T : JsVal) (hT : T ∈ tables) (n : JsVal)
    (hn : n ∈ allNodes T) :
    (urlOf n = some null → ∃ kids, thirdOf n = some (arr kids) ∧ kids ≠ []) ∧
    ((¬ ∃ kids, thirdOf n = some (arr kids)) → ∃ u, urlOf n = some (str u)) ∧
    (∀ kids, thirdOf n = some (arr kids) → kids ≠ []) := by
  obtain ⟨h1, h2, h3⟩ := null_url_check T hT n hn
  have hne : ∀ kids, thirdOf n = some (arr kids) → kids ≠ [] := by
    intro kids hk e
    rw [e] at hk
    exact h3 ((kidsOf_eq_some n []).mpr hk)
  refine ⟨fun hu => ?_, fun hleaf => ?_, hne⟩
  · obtain ⟨kids, hk⟩ := (kidsOf_isSome n).mp (h1 hu)
    exact ⟨kids, hk, hne kids hk⟩
  · refine (pageOf_isSome n).mp (h2 ?_)
    cases hk : kidsOf n with
    | none => rfl
    | some kids => exact absurd ⟨kids, (kidsOf_eq_some n kids).mp hk⟩ hleaf

/-- The statement of C14 at the top-level entry `MergeInterface` of `hierarchy`,
whose URL is `null`. -/
theorem url_null_has_nonempty_children_witness :
    ∃ kids, thirdOf (arr [str "MergeInterface", null, arr [
        arr [str "o2::quality_control::core::MonitorObjectCollection",
          str "classo2_1_1quality__control_1_1core_1_1MonitorObjectCollection.html",
          null]]]) = some (arr kids) ∧ kids ≠ [] :=
  (url_null_has_nonempty_children hierarchy (by decide!) _ (by decide!)).1 (by decide!)

/-- C15: in `annotated_dup`, every entry whose third component is a string
reference `r` has the URL `r ++ ".html"`.  In `NAVTREE` the same holds for every
reference except `annotated_dup` (URL `annotated.html`) and `functions_dup` (URL
`functions.html`), which are exactly the two entries where it fails. -/
theorem reference_names_page :
    (∀ n ∈ allNodes annotated_dup, ∀ r, refOf n = some r →
      urlOf n = some (str (r ++ ".html"))) ∧
    (∀ n ∈ allNodes NAVTREE, ∀ r, refOf n = some r →
      r ≠ "annotated_dup" → r ≠ "functions_dup" → urlOf n = some (str (r ++ ".html"))) ∧
    ((allNodes NAVTREE).filter fun n =>
        ∃ r ∈ refOf n, urlOf n ≠ some (str (r ++ ".html"))).map
      (fun n => (refOf n, urlOf n)) =
      [(some "annotated_dup", some (str "annotated.html")),
       (some "functions_dup", some (str "functions.html"))] := by
  have h1 : ∀ n ∈ allNodes annotated_dup, ∀ r ∈ refOf n,
      urlOf n = some (str (r ++ ".html")) := by decide!
  have h2 : ∀ n ∈ allNodes NAVTREE, ∀ r ∈ refOf n,
      r ≠ "annotated_dup" → r ≠ "functions_dup" →
        urlOf n = some (str (r ++ ".html")) := by decide!
  exact ⟨fun n hn r hr => h1 n hn r hr, fun n hn r hr => h2 n hn r hr, by decide!⟩

/-! Page paths derived from names -/

theorem labelOf_eq_some (n : JsVal) (s : String) :
    labelOf n = some s ↔ nameOf n = some (str s) := by
  unfold labelOf
  split
  · rename_i v h
    rw [h]
    constructor
    · intro e; cases e; rfl
    · intro e; cases e; rfl
  · rename_i h
    constructor
    · intro e; cases e
    · intro e; exact absurd e (h s)

theorem hierarchy_scoped_check :
    ∀ n ∈ allNodes hierarchy, ∀ name ∈ labelOf n,
      ("::".data <:+: name.data ∨ '.' ∈ name.data) → '<' ∉ name.data →
        ∃ k ∈ ["class", "struct", "union"],
          urlOf n = some (str (k ++ escScoped name ++ ".html")) := by
  decide!

/-- C16: for every entry of `hierarchy`, top-level or child, whose display name
contains `::` or `.` and no `<`, the URL is `k ++ esc name ++ ".html"` with `k`
one of `class`, `struct`, `union`, where `esc` turns every `_` into `__` and
every scope separator (`::` or `.`) into `_1_1`. -/
theorem hierarchy_url_from_name (n : JsVal) (hn : n ∈ allNodes hierarchy)
    (name : String) (hname : nameOf n = some (str name))
    (hsep : "::".data <:+: name.data ∨ '.' ∈ name.data) (hlt : '<' ∉ name.data) :
    ∃ k ∈ ["class", "struct", "union"],
      urlOf n = some (str (k ++ escScoped name ++ ".html")) :=
  hierarchy_scoped_check n hn name ((labelOf_eq_some n name).mpr hname) hsep hlt

/-- The statement of C16 at the top-level entry `Ccdb.Ccdb` of `hierarchy`. -/
theorem hierarchy_url_from_name_witness :
    ∃ k ∈ ["class", "struct", "union"],
      urlOf (arr [str "Ccdb.Ccdb", str "classCcdb_1_1Ccdb.html", null]) =
        some (str (k ++ escScoped "Ccdb.Ccdb" ++ ".html")) :=
  hierarchy_url_from_name (arr [str "Ccdb.Ccdb", str "classCcdb_1_1Ccdb.html", null])
    (by decide!) "Ccdb.Ccdb" (by decide!) (by decide!) (by decide!)

theorem nodesWithPath_annotated_dup :
    (nodesWithPath [] annotated_dup).map Prod.snd = allNodes annotated_dup ∧
    ∀ p ∈ nodesWithPath [] annotated_dup, p.1.getLast? = labelOf p.2 := by
  decide!

theorem annotated_dup_leaf_check :
    ∀ p ∈ nodesWithPath [] annotated_dup, kidsOf p.2 = none → 2 ≤ p.1.length →
      ∃ k ∈ ["class", "struct", "namespace"],
        urlOf p.2 = some (str (k ++ escColons (qualified p.1) ++ ".html")) := by
  decide!

/-- C17: for every leaf of `annotated_dup` that lies inside at least one
namespace entry, with `n1, ..., nk` (`k ≥ 2`) the display names on the path from
the top level down to the leaf, the URL is
`k ++ esc (n1 ++ "::" ++ ... ++ "::" ++ nk) ++ ".html"` with `k` one of `class`,
`struct`, `namespace`, where `esc` turns every `_` into `__` and every `::` into
`_1_1`. -/
theorem annotated_dup_leaf_url (path : List String) (n : JsVal)
    (hp : (path, n) ∈ nodesWithPath [] annotated_dup)
    (hleaf : ¬ ∃ kids, thirdOf n = some (arr kids)) (hdepth : 2 ≤ path.length) :
    ∃ k ∈ ["class", "struct", "namespace"],
      urlOf n = some (str (k ++ escColons (qualified path) ++ ".html")) :=
  annotated_dup_leaf_check (path, n) hp ((kidsOf_eq_none n).mpr hleaf) hdepth

/-- The statement of C17 at the leaf `o2::quality_control::core` of
`annotated_dup`. -/
theorem annotated_dup_leaf_url_witness :
    ∃ k ∈ ["class", "struct", "namespace"],
      urlOf (arr [str "core", str "namespaceo2_1_1quality__control_1_1core.html",
          str "namespaceo2_1_1quality__control_1_1core"]) =
        some (str (k ++ escColons (qualified ["o2", "quality_control", "core"]) ++ ".html")) :=
  annotated_dup_leaf_url ["o2", "quality_control", "core"]
    (arr [str "core", str "namespaceo2_1_1quality__control_1_1core.html",
      str "namespaceo2_1_1quality__control_1_1core"])
    (by decide!) (by rw [← kidsOf_eq_none]; decide!) (by decide!)

/-! The symbol table against the inheritance table, and the order of names -/

theorem pages_in_hierarchy_check :
    ∀ u ∈ (allNodes annotated_dup).filterMap pageOf, ¬ "namespace".data <+: u.data →
      u.data.reverse ∈
        ((allNodes hierarchy).filterMap pageOf).map fun s => s.data.reverse := by
  decide!

/-- C18: every URL of `annotated_dup` that does not start with `namespace` is
also the URL of some entry, top-level or child, of `hierarchy`.  The converse
fails: `classo2_1_1quality__control_1_1core_1_1Activity.html` is a URL of
`hierarchy` and not of `annotated_dup`. -/
theorem annotated_dup_pages_in_hierarchy :
    (∀ n ∈ allNodes annotated_dup, ∀ u, urlOf n = some (str u) →
      ¬ "namespace".data <+: u.data →
        ∃ m ∈ allNodes hierarchy, urlOf m = some (str u)) ∧
    (∃ m ∈ allNodes hierarchy,
      urlOf m = some (str "classo2_1_1quality__control_1_1core_1_1Activity.html")) ∧
    (∀ n ∈ allNodes annotated_dup,
      urlOf n ≠ some (str "classo2_1_1quality__control_1_1core_1_1Activity.html")) := by
  refine ⟨fun n hn u hu hns => ?_, by decide!, by decide!⟩
  have hu' : u ∈ (allNodes annotated_dup).filterMap pageOf :=
    List.mem_filterMap.mpr ⟨n, hn, (pageOf_eq_some n u).mpr hu⟩
  obtain ⟨s, hs, hsu⟩ := List.mem_map.mp (pages_in_hierarchy_check u hu' hns)
  have hsu' : s = u := String.ext (List.reverse_injective hsu)
  obtain ⟨m, hm, hmu⟩ := List.mem_filterMap.mp hs
  rw [hsu'] at hmu
  exact ⟨m, hm, (pageOf_eq_some m u).mp hmu⟩

/-- C19: every child list below the top level of `annotated_dup` and every child
list of `hierarchy` is strictly increasing in display name when names are
compared by character code after mapping `A`..`Z` to `a`..`z`.  Under the
case-sensitive comparison the order is not increasing: in the child list of
`hmpid` in `annotated_dup`, `HmpidDecoder` precedes `HmpidDecodeRawMem`, which
is the smaller of the two. -/
theorem child_lists_sorted_ignoring_case :
    (∀ L ∈ childLists annotated_dup, L.Pairwise fun a b => nameLtCI a b = true) ∧
    (∀ L ∈ childLists hierarchy, L.Pairwise fun a b => nameLtCI a b = true) ∧
    (∃ L ∈ childLists annotated_dup,
      L.map labelOf = [some "HmpidDecoder", some "HmpidDecodeRawMem",
        some "HmpidEquipment", some "HmpidTask"] ∧
      ¬ L.Pairwise fun a b => nameLt a b = true) ∧
    jsLt (codeUnits "HmpidDecoder") (codeUnits "HmpidDecodeRawMem") = false ∧
    jsLt (codeUnits "HmpidDecodeRawMem") (codeUnits "HmpidDecoder") = true := by
  decide!

end QCNav
